import Mathlib
/-!
Shallow embedding of the FAT32 filesystem engine of
`src/src/FileSystem.cpp` / `src/inc/FileSystem.h` (namespace `file_system`,
class `FileSystem`), together with proofs about its documented behaviour.

Conventions of the embedding:
* every on-device byte and every array slot of the C++ code (the code stores
  each byte in its own `uint16_t`) is modelled as a `Nat`; byte-validity
  (`< 256`) is an explicit predicate where a statement needs it;
* a 4-byte big-endian quantity (`uint16_t[4]`, index 0 = MSB) is the
  structure `B4`;
* the block device (SD card, an external collaborator reached through
  `send_cmd17` / `send_cmd24`) is a map from LBA to 512-byte sectors plus a
  per-LBA success flag; a failed `cmd17` leaves the caller's buffer
  untouched, exactly like `SDCard::send_cmd17` in `src/src/SDCard.cpp`,
  which only fills `block[]` after a successful data token;
* the unbounded `while` loops of the source that walk on-device structures
  (FAT chains, directory sectors) take explicit fuel and return `none` when
  the fuel runs out; loops whose termination is structural are fuel-free.
-/
namespace FS32

/-- 4-byte big-endian quantity: `uint16_t[4]` with index 0 the most
significant byte (`b0`) and index 3 the least significant (`b3`). -/
structure B4 where
  b0 : Nat
  b1 : Nat
  b2 : Nat
  b3 : Nat
deriving DecidableEq
/-- Numeric value of a big-endian 4-byte quantity. -/
def B4.toNat (x : B4) : Nat :=
  x.b0 * 16777216 + x.b1 * 65536 + x.b2 * 256 + x.b3
/-- All four byte slots hold genuine byte values. -/
def B4.IsByte (x : B4) : Prop :=
  x.b0 < 256 ∧ x.b1 < 256 ∧ x.b2 < 256 ∧ x.b3 < 256
instance (x : B4) : Decidable x.IsByte := by
  unfold B4.IsByte; infer_instance
def B4.zero : B4 := ⟨0, 0, 0, 0⟩
def B4.one : B4 := ⟨0, 0, 0, 1⟩
/-- `FileSystem::add_4_byte_numbers` (FileSystem.cpp:560-599): byte-wise
addition with carries; a carry out of the most significant byte is
discarded. -/
def add_4_byte_numbers (number_1 number_2 : B4) : B4 :=
  let s3 := number_1.b3 + number_2.b3
  let r3 := if s3 > 0xFF then s3 - 256 else s3
  let c4 := if s3 > 0xFF then 1 else 0
  let s2 := number_1.b2 + number_2.b2 + c4
  let r2 := if s2 > 0xFF then s2 - 256 else s2
  let c3 := if s2 > 0xFF then 1 else 0
  let s1 := number_1.b1 + number_2.b1 + c3
  let r1 := if s1 > 0xFF then s1 - 256 else s1
  let c2 := if s1 > 0xFF then 1 else 0
  let s0 := number_1.b0 + number_2.b0 + c2
  let r0 := if s0 > 0xFF then s0 - 256 else s0
  ⟨r0, r1, r2, r3⟩
/-- `FileSystem::subtract_4_byte_numbers` (FileSystem.cpp:601-648): byte-wise
subtraction with borrows; a borrow out of the most significant byte is
discarded (the source documents the precondition minuend ≥ subtrahend). -/
def subtract_4_byte_numbers (number_1 number_2 : B4) : B4 :=
  let r3 := if number_1.b3 < number_2.b3 then number_1.b3 + 256 - number_2.b3
            else number_1.b3 - number_2.b3
  let w4 := if number_1.b3 < number_2.b3 then 1 else 0
  let r2 := if number_1.b2 < number_2.b2 + w4 then number_1.b2 + 256 - (number_2.b2 + w4)
            else number_1.b2 - (number_2.b2 + w4)
  let w3 := if number_1.b2 < number_2.b2 + w4 then 1 else 0
  let r1 := if number_1.b1 < number_2.b1 + w3 then number_1.b1 + 256 - (number_2.b1 + w3)
            else number_1.b1 - (number_2.b1 + w3)
  let w2 := if number_1.b1 < number_2.b1 + w3 then 1 else 0
  let r0 := if number_1.b0 < number_2.b0 + w2 then number_1.b0 + 256 - (number_2.b0 + w2)
            else number_1.b0 - (number_2.b0 + w2)
  ⟨r0, r1, r2, r3⟩
/-- The repeated-addition `while` loop of
`FileSystem::calculate_sector_address_from_cluster_number`
(FileSystem.cpp:825-840): while the remaining count is non-zero, add
`sectors_per_cluster` to the accumulated offset and decrement the count.
The structural `fuel` argument is a computability device only: the caller
passes `count.toNat + 1`, which strictly dominates the loop's variant
(`subtract_one_toNat`), so the out-of-fuel branch is unreachable. -/
def sector_address_mul_loop_fuel : Nat → B4 → B4 → B4 → B4
  | 0, _, lba_offset, _ => lba_offset
  | fuel + 1, cluster_number_minus_offset, lba_offset, spc4 =>
    if cluster_number_minus_offset.b0 = 0 ∧ cluster_number_minus_offset.b1 = 0 ∧
        cluster_number_minus_offset.b2 = 0 ∧ cluster_number_minus_offset.b3 = 0 then
      lba_offset
    else
      sector_address_mul_loop_fuel fuel
        (subtract_4_byte_numbers cluster_number_minus_offset B4.one)
        (add_4_byte_numbers spc4 lba_offset) spc4
def sector_address_mul_loop (cluster_number_minus_offset lba_offset spc4 : B4) : B4 :=
  sector_address_mul_loop_fuel (cluster_number_minus_offset.toNat + 1)
    cluster_number_minus_offset lba_offset spc4
/-- `FileSystem::calculate_sector_address_from_cluster_number`
(FileSystem.cpp:810-843).  `cluster_begin_lba` and the single-byte
`sectors_per_cluster` come from the engine's volume geometry. -/
def calculate_sector_address_from_cluster_number
    (cluster_begin_lba : B4) (sectors_per_cluster : Nat) (cluster_number : B4) : B4 :=
  let spc4 : B4 := ⟨0, 0, 0, sectors_per_cluster⟩
  let cluster_number_minus_offset :=
    subtract_4_byte_numbers cluster_number ⟨0, 0, 0, 2⟩
  let lba_offset := sector_address_mul_loop cluster_number_minus_offset B4.zero spc4
  add_4_byte_numbers cluster_begin_lba lba_offset
/-- The repeated-subtraction `while` loop of
`FileSystem::calculate_fat_sector_offset_from_cluster_number`
(FileSystem.cpp:868-896): divide by 128 by repeatedly subtracting 128 while
incrementing the sector offset; the in-sector index is the remainder times
4. -/
def fat_offset_div_loop_fuel : Nat → B4 → B4 → B4 × Nat
  | 0, copy_of_starting_cluster_number, fat_sector_offset =>
    (fat_sector_offset, copy_of_starting_cluster_number.b3 * 4)
  | fuel + 1, copy_of_starting_cluster_number, fat_sector_offset =>
    if copy_of_starting_cluster_number.b0 = 0 ∧ copy_of_starting_cluster_number.b1 = 0 ∧
        copy_of_starting_cluster_number.b2 = 0 ∧ copy_of_starting_cluster_number.b3 ≤ 127 then
      (fat_sector_offset, copy_of_starting_cluster_number.b3 * 4)
    else
      fat_offset_div_loop_fuel fuel
        (subtract_4_byte_numbers copy_of_starting_cluster_number ⟨0, 0, 0, 128⟩)
        (add_4_byte_numbers fat_sector_offset B4.one)
/-- The fuel (again `count.toNat + 1`) dominates the loop's variant
(`subtract_128_toNat`), so the out-of-fuel branch is unreachable. -/
def fat_offset_div_loop (copy_of_starting_cluster_number fat_sector_offset : B4) :
    B4 × Nat :=
  fat_offset_div_loop_fuel (copy_of_starting_cluster_number.toNat + 1)
    copy_of_starting_cluster_number fat_sector_offset
/-- `FileSystem::calculate_fat_sector_offset_from_cluster_number`
(FileSystem.cpp:845-897).  The `fat_sector_offset` accumulator is an in/out
reference that the caller initialises (both call sites pass `{0,0,0,0}`). -/
def calculate_fat_sector_offset_from_cluster_number
    (cluster_number fat_sector_offset : B4) : B4 × Nat :=
  fat_offset_div_loop cluster_number fat_sector_offset

/-- `FileSystem::media_type_t` (FileSystem.h:37-41). -/
inductive media_type_t
  | REMOVABLE_DISK
  | FIXED_DISK
deriving DecidableEq

/-- `FileSystem::directory_entry_t` (FileSystem.h:43-50). -/
inductive directory_entry_t
  | VOLUME_LABEL
  | DIRECTORY_ENTRY
  | FILE_ENTRY
  | LFN_ENTRY
deriving DecidableEq

/-- `FileSystem::total_directory_entries` (FileSystem.h:57): capacity of the
`file_system_entrys` arena. -/
def total_directory_entries : Nat := 100

/-- `FileSystem::FAT32PrimaryPartition` (FileSystem.h:66-83).  Single bytes
are `Nat`s; the CHS fields keep the source's reversed storage order
(`chs_begin[2] = sector[447]`, …). -/
structure FAT32PrimaryPartition where
  boot_flag : Nat
  chs_begin0 : Nat
  chs_begin1 : Nat
  chs_begin2 : Nat
  type_code : Nat
  chs_end0 : Nat
  chs_end1 : Nat
  chs_end2 : Nat
  lba_begin : B4
  number_of_sectors : B4
deriving DecidableEq

/-- `FileSystem::FAT32MasterBootRecord` (FileSystem.h:85-95).  The source
declares four partition slots but only ever reads or writes
`primary_partition_1` and the signature (FileSystem.cpp:398-454), so only
those are modelled.  `mbr_signature0/1` are `mbr_signature[0]`/`[1]`. -/
structure FAT32MasterBootRecord where
  primary_partition_1 : FAT32PrimaryPartition
  mbr_signature0 : Nat
  mbr_signature1 : Nat
deriving DecidableEq

/-- `FileSystem::FAT32VolumeID` (FileSystem.h:106-126), with every field the
source populates in `read_fat_32_volume_id` (FileSystem.cpp:456-558).
Two-byte arrays become two `Nat` fields (`…0` = index 0 = MSB); the
`jmp_to_boot_code`/`oem_name_ascii` byte runs are index maps (the source's
`oem_name_ascii` loop writes indices 3-10, past the end of its 8-slot
array). -/
structure FAT32VolumeID where
  jmp_to_boot_code : Nat → Nat
  oem_name_ascii : Nat → Nat
  bytes_per_sector0 : Nat
  bytes_per_sector1 : Nat
  sectors_per_cluster : Nat
  size_of_reserved_area_sectors0 : Nat
  size_of_reserved_area_sectors1 : Nat
  number_of_fats : Nat
  max_num_files_in_root_dir0 : Nat
  max_num_files_in_root_dir1 : Nat
  number_of_sectors_in_file_system0 : Nat
  number_of_sectors_in_file_system1 : Nat
  media_type : media_type_t
  size_of_each_fat_in_sectors0 : Nat
  size_of_each_fat_in_sectors1 : Nat
  sectors_per_track_in_storage_device0 : Nat
  sectors_per_track_in_storage_device1 : Nat
  num_heads_in_storage_device0 : Nat
  num_heads_in_storage_device1 : Nat
  num_of_sectors_before_start_partition : B4
  num_of_sectors_in_file_system_extended : B4
  sectors_per_fat : B4
  root_directory_first_cluster : B4
  volume_id_signature0 : Nat
  volume_id_signature1 : Nat

/-- `FileSystem::FAT32FileSystemEntry` (FileSystem.h:152-246).  The C++
parent back-reference is a raw pointer into the `file_system_entrys` array;
here it is the element's arena index, with `none` for `nullptr` (root).
The LFN-only fields (`sequence_order_index_byte`, `checksum`,
`long_name_of_entry`) are never read or written by the engine and are
omitted. -/
structure FAT32FileSystemEntry where
  entry_in_use : Bool
  parent_directory : Option Nat
  deleted_directory_entry : Bool
  attribute_byte : Nat
  entry_type : directory_entry_t
  name_of_entry : Nat → Nat
  starting_cluster_address : B4
  size_of_entry_in_bytes : B4

/-- A 512-byte device sector: byte index ↦ byte value. -/
def Sector : Type := Nat → Nat

/-- The all-zero buffer, the content of the zero-initialised local
`uint16_t directory_sector[512] = {}` / `current_fat_table_sector[512] = {}`
buffers. -/
def zeroSector : Sector := fun _ => 0

/-- The block device (SD card).  `ok lba` tells whether a `cmd17` single
block read at that address answers with a data token; `mem lba` is the
sector stored there. -/
structure Device where
  ok : Nat → Bool
  mem : Nat → Sector

/-- `SDCard::send_cmd17` (SDCard.cpp:436-479) as seen by the engine: on
success the 512-byte buffer is overwritten with the sector, on failure
(`SD_CARD_NO_RESPONSE`) the buffer is left untouched.  The engine hands the
device a big-endian `B4` block address, keyed here by its numeric value. -/
def Device.send_cmd17 (d : Device) (buffer : Sector) (addr : B4) : Bool × Sector :=
  if d.ok addr.toNat then (true, d.mem addr.toNat) else (false, buffer)

/-- Modelled from the spec: `send_cmd24` is called by FileSystem.cpp but the
SDCard sources in the repository do not contain its implementation; §6 of
the specification defines it as `write_block(lba, data)`, writing one
512-byte block at the given LBA. -/
def Device.send_cmd24 (d : Device) (data : Sector) (addr : B4) : Device :=
  { d with mem := fun l => if l = addr.toNat then data else d.mem l }

/-- A device operation issued by the engine (block granularity). -/
inductive DevOp
  | read (lba : Nat)
  | write (lba : Nat)
deriving DecidableEq

/-- `FileSystem::read_fat32_master_boot_record` (FileSystem.cpp:398-454).
`mbr0` is the prior value of the `fat_32_master_boot_record` member (left
untouched when the `cmd17` fails); `junk` is the content of the
uninitialised local buffer `mbr_512_byte_sector`.  Yields the function's
Boolean result, the new member value and the device-operation log. -/
def read_fat32_master_boot_record (d : Device) (mbr0 : FAT32MasterBootRecord)
    (junk : Sector) : Bool × FAT32MasterBootRecord × List DevOp :=
  let r := d.send_cmd17 junk B4.zero
  let sec := r.2
  if r.1 then
    let mbr : FAT32MasterBootRecord :=
      { primary_partition_1 :=
          { boot_flag := sec 446
            chs_begin2 := sec 447
            chs_begin1 := sec 448
            chs_begin0 := sec 449
            type_code := sec 450
            chs_end2 := sec 451
            chs_end1 := sec 452
            chs_end0 := sec 453
            lba_begin := ⟨sec 457, sec 456, sec 455, sec 454⟩
            number_of_sectors := ⟨sec 461, sec 460, sec 459, sec 458⟩ }
        mbr_signature1 := sec 510
        mbr_signature0 := sec 511 }
    let valid_signature :=
      (mbr.mbr_signature0 = 0x55 ∧ mbr.mbr_signature1 = 0xAA) ∨
        (mbr.mbr_signature0 = 0xAA ∧ mbr.mbr_signature1 = 0x55)
    (decide ((mbr.primary_partition_1.type_code = 0xB ∨
        mbr.primary_partition_1.type_code = 0xC) ∧ valid_signature),
      mbr, [DevOp.read B4.zero.toNat])
  else
    (false, mbr0, [DevOp.read B4.zero.toNat])

/-- `FileSystem::read_fat_32_volume_id` (FileSystem.cpp:456-558).  The
`cmd17` response is stored in `cmd17_response` but never examined, so the
descriptor is parsed out of the buffer unconditionally and the Boolean
result is the signature check alone.  `vol0` is the prior member value
(some fields survive when the sector bytes select no enum case); `junk` is
the uninitialised local buffer `volume_id_sector`. -/
def read_fat_32_volume_id (d : Device) (block_address : B4)
    (vol0 : FAT32VolumeID) (junk : Sector) :
    Bool × FAT32VolumeID × List DevOp :=
  let r := d.send_cmd17 junk block_address
  let sec := r.2
  let vol : FAT32VolumeID :=
    { jmp_to_boot_code := fun i => if i < 3 then sec i else vol0.jmp_to_boot_code i
      oem_name_ascii := fun i => if 3 ≤ i ∧ i < 11 then sec i else vol0.oem_name_ascii i
      bytes_per_sector1 := sec 11
      bytes_per_sector0 := sec 12
      sectors_per_cluster := sec 13
      size_of_reserved_area_sectors1 := sec 14
      size_of_reserved_area_sectors0 := sec 15
      number_of_fats := sec 16
      max_num_files_in_root_dir1 := sec 17
      max_num_files_in_root_dir0 := sec 18
      number_of_sectors_in_file_system1 := sec 19
      number_of_sectors_in_file_system0 := sec 20
      media_type :=
        if sec 21 = 0xF0 then media_type_t.REMOVABLE_DISK
        else if sec 21 = 0xF8 then media_type_t.FIXED_DISK
        else vol0.media_type
      size_of_each_fat_in_sectors1 := sec 22
      size_of_each_fat_in_sectors0 := sec 23
      sectors_per_track_in_storage_device1 := sec 24
      sectors_per_track_in_storage_device0 := sec 25
      num_heads_in_storage_device1 := sec 26
      num_heads_in_storage_device0 := sec 27
      num_of_sectors_before_start_partition := ⟨sec 31, sec 30, sec 29, sec 28⟩
      num_of_sectors_in_file_system_extended := ⟨sec 35, sec 34, sec 33, sec 32⟩
      sectors_per_fat := ⟨sec 39, sec 38, sec 37, sec 36⟩
      root_directory_first_cluster := ⟨sec 47, sec 46, sec 45, sec 44⟩
      volume_id_signature1 := sec 510
      volume_id_signature0 := sec 511 }
  let valid_signature :=
    (vol.volume_id_signature0 = 0x55 ∧ vol.volume_id_signature1 = 0xAA) ∨
      (vol.volume_id_signature0 = 0xAA ∧ vol.volume_id_signature1 = 0x55)
  (decide valid_signature, vol, [DevOp.read block_address.toNat])

/-- The in-memory arena under construction: the `file_system_entrys` array
together with `file_systems_entry_index` (FileSystem.h:352-355). -/
structure Arena where
  entrys : Nat → FAT32FileSystemEntry
  idx : Nat

/-- The "." / ".." pseudo-entry skip condition shared verbatim by
`read_directory_recursive` (FileSystem.cpp:703-729) and `delete_file`
(FileSystem.cpp:311-337): a directory-attributed slot whose name starts
with `.` then `.` or blank, with all remaining name bytes blank. -/
def dot_name_skip (sec : Sector) (base : Nat) : Bool :=
  decide ((sec (base + 11) &&& 16 ≠ 0) ∧ sec base = 0x2E ∧
    (sec (base + 1) = 0x2E ∨ sec (base + 1) = 0x20) ∧
    ∀ j ∈ List.range 9, sec (base + 2 + j) = 0x20)

/-- Attribute-bit classification of a valid slot
(FileSystem.cpp:732-743); when none of the volume-label / directory / file
bits is set, no assignment happens and the entry keeps its previous
`entry_type`. -/
def classify_entry_type (attr : Nat) (old : directory_entry_t) : directory_entry_t :=
  if attr &&& 8 ≠ 0 then directory_entry_t.VOLUME_LABEL
  else if attr &&& 16 ≠ 0 then directory_entry_t.DIRECTORY_ENTRY
  else if attr &&& 32 ≠ 0 then directory_entry_t.FILE_ENTRY
  else old

mutual
/-- The 16-slot `for` loop of `FileSystem::read_directory_recursive`
(FileSystem.cpp:675-785), scanning the fetched sector `sec` from slot `i`:
terminator / deleted / LFN / hidden-system / dot-entry slots are skipped,
every other slot is appended to the arena, and a just-appended
`DIRECTORY_ENTRY` triggers an immediate recursive descent before the
remaining slots are scanned.  Returns the `end_of_directory_found` flag,
the arena and the operation log.  `fuel` bounds the total number of steps
(the source recursion has no bound, see FileSystem.cpp:804); `none` means
the budget ran out. -/
def read_directory_scan_slots (d : Device) (cluster_begin_lba : B4)
    (sectors_per_cluster : Nat) :
    Nat → Nat → Sector → Option Nat → Arena → Option (Bool × Arena × List DevOp)
  | 0, _, _, _, _ => none
  | fuel + 1, i, sec, parent, ar =>
    if 16 ≤ i then some (false, ar, [])
    else
      let base := i * 32
      if sec base = 0 then some (true, ar, [])
      else if sec base = 0xE5 then
        read_directory_scan_slots d cluster_begin_lba sectors_per_cluster fuel
          (i + 1) sec parent ar
      else if sec (base + 11) = 0xF then
        read_directory_scan_slots d cluster_begin_lba sectors_per_cluster fuel
          (i + 1) sec parent ar
      else if sec (base + 11) &&& 2 ≠ 0 ∨ sec (base + 11) &&& 4 ≠ 0 then
        read_directory_scan_slots d cluster_begin_lba sectors_per_cluster fuel
          (i + 1) sec parent ar
      else if dot_name_skip sec base then
        read_directory_scan_slots d cluster_begin_lba sectors_per_cluster fuel
          (i + 1) sec parent ar
      else
        let e0 := ar.entrys ar.idx
        let e : FAT32FileSystemEntry :=
          { entry_in_use := true
            parent_directory := parent
            deleted_directory_entry := e0.deleted_directory_entry
            attribute_byte := sec (base + 11)
            entry_type := classify_entry_type (sec (base + 11)) e0.entry_type
            name_of_entry := fun j => if j < 11 then sec (base + j) else e0.name_of_entry j
            starting_cluster_address :=
              ⟨sec (base + 21), sec (base + 20), sec (base + 27), sec (base + 26)⟩
            size_of_entry_in_bytes :=
              ⟨sec (base + 31), sec (base + 30), sec (base + 29), sec (base + 28)⟩ }
        let ar' : Arena :=
          { entrys := fun k => if k = ar.idx then e else ar.entrys k
            idx := ar.idx + 1 }
        if e.entry_type = directory_entry_t.DIRECTORY_ENTRY then
          let sector_address := calculate_sector_address_from_cluster_number
            cluster_begin_lba sectors_per_cluster e.starting_cluster_address
          match read_directory_recursive d cluster_begin_lba sectors_per_cluster fuel
              sector_address zeroSector (some (ar'.idx - 1)) ar' with
          | none => none
          | some (ar'', ops1) =>
            match read_directory_scan_slots d cluster_begin_lba sectors_per_cluster fuel
                (i + 1) sec parent ar'' with
            | none => none
            | some (endf, ar3, ops2) => some (endf, ar3, ops1 ++ ops2)
        else
          read_directory_scan_slots d cluster_begin_lba sectors_per_cluster fuel
            (i + 1) sec parent ar'

/-- `FileSystem::read_directory_recursive` (FileSystem.cpp:650-808), one
sector per recursion level: fetch the sector at `addr` into the local
buffer (zero-initialised at entry, reused across the sector-advance loop,
so `buf` carries the previous content into a failed read), scan its 16
slots, and if no terminator was found advance to `addr + 1`. -/
def read_directory_recursive (d : Device) (cluster_begin_lba : B4)
    (sectors_per_cluster : Nat) :
    Nat → B4 → Sector → Option Nat → Arena → Option (Arena × List DevOp)
  | 0, _, _, _, _ => none
  | fuel + 1, addr, buf, parent, ar =>
    let r := d.send_cmd17 buf addr
    match read_directory_scan_slots d cluster_begin_lba sectors_per_cluster fuel
        0 r.2 parent ar with
    | none => none
    | some (endf, ar', ops) =>
      if endf then some (ar', DevOp.read addr.toNat :: ops)
      else
        let addr' := add_4_byte_numbers ⟨0, 0, 0, 1⟩ addr
        match read_directory_recursive d cluster_begin_lba sectors_per_cluster fuel
            addr' r.2 parent ar' with
        | none => none
        | some (ar'', ops') => some (ar'', (DevOp.read addr.toNat :: ops) ++ ops')
end

/-- The engine's state: the members of class `FileSystem`
(FileSystem.h:344-366) that the modelled code reads or writes.
`fat_begin_lba` is used by FileSystem.cpp:28,206 as a member alongside
`cluster_begin_lba`. -/
structure FileSystemState where
  fat_32_master_boot_record : FAT32MasterBootRecord
  fat_32_volume_id : FAT32VolumeID
  file_system_entrys : Nat → FAT32FileSystemEntry
  file_systems_entry_index : Nat
  fat_begin_lba : B4
  cluster_begin_lba : B4

/-- The `number_of_fats` repeated-addition loop of the constructor
(FileSystem.cpp:36-40): `total := sectors_per_fat + total`, `n` times. -/
def total_fat_sectors_loop (sectors_per_fat : B4) : Nat → B4
  | 0 => B4.zero
  | n + 1 => add_4_byte_numbers sectors_per_fat (total_fat_sectors_loop sectors_per_fat n)

/-- `FileSystem::FileSystem` (FileSystem.cpp:14-54): read the MBR, read the
Volume ID at the partition's `lba_begin`, derive `fat_begin_lba` and
`cluster_begin_lba`, then ingest the directory tree from the root cluster.
The Boolean results of both boot-sector reads are discarded, exactly as in
the source (FileSystem.cpp:19,22 ignore the return values).  `init` is the
engine's memory before construction (relevant where a failed read leaves a
member or buffer unwritten); `junk_mbr`/`junk_vol` are the two
uninitialised local sector buffers. -/
def FileSystem_construct (d : Device) (init : FileSystemState)
    (junk_mbr junk_vol : Sector) (fuel : Nat) :
    Option (FileSystemState × List DevOp) :=
  let m := read_fat32_master_boot_record d init.fat_32_master_boot_record junk_mbr
  let mbr := m.2.1
  let v := read_fat_32_volume_id d mbr.primary_partition_1.lba_begin
    init.fat_32_volume_id junk_vol
  let vol := v.2.1
  let fat_begin := add_4_byte_numbers mbr.primary_partition_1.lba_begin
    ⟨0, 0, vol.size_of_reserved_area_sectors0, vol.size_of_reserved_area_sectors1⟩
  let cluster_begin := add_4_byte_numbers fat_begin
    (total_fat_sectors_loop vol.sectors_per_fat vol.number_of_fats)
  let root_addr := calculate_sector_address_from_cluster_number cluster_begin
    vol.sectors_per_cluster vol.root_directory_first_cluster
  match read_directory_recursive d cluster_begin vol.sectors_per_cluster fuel
      root_addr zeroSector none ⟨init.file_system_entrys, 0⟩ with
  | none => none
  | some (ar, ops) =>
    some ({ fat_32_master_boot_record := mbr
            fat_32_volume_id := vol
            file_system_entrys := ar.entrys
            file_systems_entry_index := ar.idx
            fat_begin_lba := fat_begin
            cluster_begin_lba := cluster_begin },
      m.2.2 ++ v.2.2 ++ ops)

/-- The 11-byte file-name comparison of the `delete_file` resolution scan
(FileSystem.cpp:79-89): plain equality of every name byte against the
caller's `file_name`. -/
def entry_name_matches (e : FAT32FileSystemEntry) (file_name : Nat → Nat) : Bool :=
  (List.range 11).all fun k => e.name_of_entry k == file_name k

/-- The 11-byte enclosing-directory-name comparison of the resolution scan
(FileSystem.cpp:123-133): the caller's path-segment bytes are masked with
`0xFF` before the comparison. -/
def enclosing_name_matches (e : FAT32FileSystemEntry) (segment : Nat → Nat) : Bool :=
  (List.range 11).all fun k => e.name_of_entry k == segment k % 256

/-- The parent-chain walk of the resolution scan (FileSystem.cpp:112-154):
for `remaining` more path segments starting at segment `j`, follow the
parent back-references; a name mismatch or a missing ancestor clears
`absolute_path_match`.  Returns `(absolute_path_match, final parent)`. -/
def verify_enclosing_path (entrys : Nat → FAT32FileSystemEntry)
    (enclosing_directory_names : Nat → Nat → Nat) :
    Nat → Nat → Option Nat → Bool × Option Nat
  | 0, _, cur => (true, cur)
  | remaining + 1, j, cur =>
    match cur with
    | none => (false, none)
    | some p =>
      if enclosing_name_matches (entrys p) (enclosing_directory_names j) then
        verify_enclosing_path entrys enclosing_directory_names remaining (j + 1)
          ((entrys p).parent_directory)
      else (false, some p)

/-- Whether arena element `i` satisfies the resolution scan of `delete_file`
(FileSystem.cpp:76-166): name match, then either the zero-depth root
shortcut (FileSystem.cpp:104-109) or a fully verified parent chain that
ends at root exactly when the segment list is exhausted
(FileSystem.cpp:156-161). -/
def delete_target_matches (entrys : Nat → FAT32FileSystemEntry)
    (file_name : Nat → Nat) (num_enclosing_directories : Nat)
    (enclosing_directory_names : Nat → Nat → Nat) (i : Nat) : Bool :=
  entry_name_matches (entrys i) file_name &&
    (if num_enclosing_directories = 0 ∧ (entrys i).parent_directory = none then true
     else
       let w := verify_enclosing_path entrys enclosing_directory_names
         num_enclosing_directories 0 (entrys i).parent_directory
       w.1 && w.2 == none)

/-- The outer `for` loop of the resolution scan (FileSystem.cpp:76-166):
try slots `i, i+1, …` while `remaining` counts down, stopping at the first
slot that satisfies `delete_target_matches` (the loop `break` with
`entry_index` saved). -/
def delete_file_resolve_scan (entrys : Nat → FAT32FileSystemEntry)
    (file_name : Nat → Nat) (num_enclosing_directories : Nat)
    (enclosing_directory_names : Nat → Nat → Nat) :
    Nat → Nat → Option Nat
  | 0, _ => none
  | remaining + 1, i =>
    if delete_target_matches entrys file_name num_enclosing_directories
        enclosing_directory_names i then some i
    else delete_file_resolve_scan entrys file_name num_enclosing_directories
      enclosing_directory_names remaining (i + 1)

/-- The resolution scan over all 100 arena slots (the loop bound is the
capacity constant `total_directory_entries`, not the number of populated
slots); `none` when the scan falls through (FileSystem.cpp:168-172). -/
def delete_file_resolve (entrys : Nat → FAT32FileSystemEntry)
    (file_name : Nat → Nat) (num_enclosing_directories : Nat)
    (enclosing_directory_names : Nat → Nat → Nat) : Option Nat :=
  delete_file_resolve_scan entrys file_name num_enclosing_directories
    enclosing_directory_names total_directory_entries 0

/-- The FAT-chain freeing `while` loop of `delete_file`
(FileSystem.cpp:195-243).  Each iteration: locate the current cluster's FAT
sector and in-sector byte index, read that sector (into a fresh
zero-initialised buffer, FileSystem.cpp:205), extract the stored 4-byte
little-endian next-cluster value into big-endian form, zero the 4 slot
bytes, write the sector back, then stop if the extracted value is an
end-of-chain marker, else continue at that value.  `none` = fuel exhausted
(the source would loop on). -/
def fat_chain_free_loop (fat_begin_lba : B4) :
    Nat → Device → B4 → Option (Device × List DevOp)
  | 0, _, _ => none
  | fuel + 1, d, current_cluster_number =>
    let so := calculate_fat_sector_offset_from_cluster_number
      current_cluster_number B4.zero
    let cluster_index_in_sector := so.2
    let abs_sector := add_4_byte_numbers fat_begin_lba so.1
    let r := d.send_cmd17 zeroSector abs_sector
    let sec := r.2
    let data : B4 :=
      ⟨sec (cluster_index_in_sector + 3), sec (cluster_index_in_sector + 2),
        sec (cluster_index_in_sector + 1), sec cluster_index_in_sector⟩
    let sec' : Sector := fun j =>
      if j = cluster_index_in_sector ∨ j = cluster_index_in_sector + 1 ∨
          j = cluster_index_in_sector + 2 ∨ j = cluster_index_in_sector + 3 then 0
      else sec j
    let d' := d.send_cmd24 sec' abs_sector
    let ops := [DevOp.read abs_sector.toNat, DevOp.write abs_sector.toNat]
    if 0xF ≤ data.b0 ∧ data.b1 = 0xFF ∧ data.b2 = 0xFF ∧ 0xF8 ≤ data.b3 then
      some (d', ops)
    else
      match fat_chain_free_loop fat_begin_lba fuel d' data with
      | none => none
      | some (d'', ops') => some (d'', ops ++ ops')

/-- Result of scanning the 16 slots of one directory sector during
tombstoning. -/
structure TombScanResult where
  end_of_directory_found : Bool
  file_found_in_directory : Bool
  buffer : Sector
  dev : Device
  ops : List DevOp

/-- The 16-slot `for` loop of the tombstoning phase of `delete_file`
(FileSystem.cpp:283-374), scanning `remaining` more slots from slot `i`.
A slot is rewritten when its attribute byte and its four starting-cluster
bytes match the resolved element: the name-comparison loop of the source
(FileSystem.cpp:346-353) never skips a slot, because its `continue`
statement only advances the inner `j` loop it sits in, so it is not part of
the match condition here.  On a match the slot's first byte becomes `0xE5`,
bytes 20-21 become zero, and the sector is written back; scanning then
continues with the next slot of the same sector. -/
def tombstone_scan_slots (target : FAT32FileSystemEntry) (addr : B4) :
    Nat → Nat → Sector → Device → Bool → TombScanResult
  | 0, _, sec, d, found =>
    ⟨false, found, sec, d, []⟩
  | remaining + 1, i, sec, d, found =>
    let base := i * 32
    if sec base = 0 then ⟨true, found, sec, d, []⟩
    else if sec base = 0xE5 then
      tombstone_scan_slots target addr remaining (i + 1) sec d found
    else if sec (base + 11) = 0xF then
      tombstone_scan_slots target addr remaining (i + 1) sec d found
    else if sec (base + 11) &&& 2 ≠ 0 ∨ sec (base + 11) &&& 4 ≠ 0 then
      tombstone_scan_slots target addr remaining (i + 1) sec d found
    else if dot_name_skip sec base then
      tombstone_scan_slots target addr remaining (i + 1) sec d found
    else if sec (base + 11) ≠ target.attribute_byte then
      tombstone_scan_slots target addr remaining (i + 1) sec d found
    else if sec (base + 21) ≠ target.starting_cluster_address.b0 ∨
        sec (base + 20) ≠ target.starting_cluster_address.b1 ∨
        sec (base + 27) ≠ target.starting_cluster_address.b2 ∨
        sec (base + 26) ≠ target.starting_cluster_address.b3 then
      tombstone_scan_slots target addr remaining (i + 1) sec d found
    else
      let sec' : Sector := fun j =>
        if j = base + 21 ∨ j = base + 20 then 0
        else if j = base then 0xE5
        else sec j
      let d' := d.send_cmd24 sec' addr
      let rest := tombstone_scan_slots target addr remaining (i + 1) sec' d' true
      { rest with ops := DevOp.write addr.toNat :: rest.ops }

/-- The sector-advance `while` loop of the tombstoning phase
(FileSystem.cpp:281-392), given the already-fetched buffer for `addr`
(the source issues the first read before the loop and re-reads into the
same buffer when advancing).  Returns `file_found_in_directory`, the
device, and the log; `none` = fuel exhausted (a directory with no
terminator loops forever in the source). -/
def tombstone_directory_loop (target : FAT32FileSystemEntry) :
    Nat → Device → B4 → Sector → Option (Bool × Device × List DevOp)
  | 0, _, _, _ => none
  | fuel + 1, d, addr, buf =>
    let s := tombstone_scan_slots target addr 16 0 buf d false
    if s.file_found_in_directory then some (true, s.dev, s.ops)
    else if s.end_of_directory_found then some (false, s.dev, s.ops)
    else
      let addr' := add_4_byte_numbers ⟨0, 0, 0, 1⟩ addr
      let r := s.dev.send_cmd17 s.buffer addr'
      match tombstone_directory_loop target fuel s.dev addr' r.2 with
      | none => none
      | some (b, d', ops') =>
        some (b, d', s.ops ++ DevOp.read addr'.toNat :: ops')

/-- Result of a `delete_file` call.  `ret = none` models the source running
out of the step budget inside one of its unbounded device-walking loops;
otherwise `ret = some b` is the function's Boolean return value.  The
device-operation log is split into the FAT-chain phase and the tombstoning
phase. -/
structure DeleteFileResult where
  ret : Option Bool
  fs : FileSystemState
  dev : Device
  fat_ops : List DevOp
  dir_ops : List DevOp

/-- `FileSystem::delete_file` (FileSystem.cpp:70-396): resolve the name and
enclosing-directory path against the arena (early `false` with no device
traffic when nothing matches), free the FAT chain unless the starting
cluster is 0 or 1, then tombstone the matching 32-byte slot of the
enclosing directory on the device.  The engine's in-memory members are
threaded through unchanged - the source never writes to them in this
function. -/
def delete_file (s : FileSystemState) (d : Device) (file_name : Nat → Nat)
    (num_enclosing_directories : Nat)
    (enclosing_directory_names : Nat → Nat → Nat)
    (fat_fuel dir_fuel : Nat) : DeleteFileResult :=
  match delete_file_resolve s.file_system_entrys file_name
      num_enclosing_directories enclosing_directory_names with
  | none => ⟨some false, s, d, [], []⟩
  | some entry_index =>
    let target := s.file_system_entrys entry_index
    let sc := target.starting_cluster_address
    let fat_result : Option (Device × List DevOp) :=
      if (sc.b3 = 0 ∨ sc.b3 = 1) ∧ sc.b2 = 0 ∧ sc.b1 = 0 ∧ sc.b0 = 0 then
        some (d, [])
      else fat_chain_free_loop s.fat_begin_lba fat_fuel d sc
    match fat_result with
    | none => ⟨none, s, d, [], []⟩
    | some (d1, fat_ops) =>
      let enclosing_addr :=
        match target.parent_directory with
        | none =>
          calculate_sector_address_from_cluster_number s.cluster_begin_lba
            s.fat_32_volume_id.sectors_per_cluster
            s.fat_32_volume_id.root_directory_first_cluster
        | some p =>
          calculate_sector_address_from_cluster_number s.cluster_begin_lba
            s.fat_32_volume_id.sectors_per_cluster
            (s.file_system_entrys p).starting_cluster_address
      let r := d1.send_cmd17 zeroSector enclosing_addr
      match tombstone_directory_loop target dir_fuel d1 enclosing_addr r.2 with
      | none => ⟨none, s, d1, fat_ops, [DevOp.read enclosing_addr.toNat]⟩
      | some (found, d2, ops) =>
        ⟨some found, s, d2, fat_ops, DevOp.read enclosing_addr.toNat :: ops⟩

/-- An all-zero partition record, used as pre-construction memory content in
concrete scenarios. -/
def blankPartition : FAT32PrimaryPartition :=
  ⟨0, 0, 0, 0, 0, 0, 0, 0, B4.zero, B4.zero⟩

/-- An all-zero MBR record. -/
def blankMBR : FAT32MasterBootRecord := ⟨blankPartition, 0, 0⟩

/-- A baseline volume descriptor for concrete scenarios: one sector per
cluster, root directory at cluster 2, everything else zero. -/
def baseVolumeID : FAT32VolumeID :=
  { jmp_to_boot_code := fun _ => 0
    oem_name_ascii := fun _ => 0
    bytes_per_sector0 := 0
    bytes_per_sector1 := 0
    sectors_per_cluster := 1
    size_of_reserved_area_sectors0 := 0
    size_of_reserved_area_sectors1 := 0
    number_of_fats := 0
    max_num_files_in_root_dir0 := 0
    max_num_files_in_root_dir1 := 0
    number_of_sectors_in_file_system0 := 0
    number_of_sectors_in_file_system1 := 0
    media_type := media_type_t.REMOVABLE_DISK
    size_of_each_fat_in_sectors0 := 0
    size_of_each_fat_in_sectors1 := 0
    sectors_per_track_in_storage_device0 := 0
    sectors_per_track_in_storage_device1 := 0
    num_heads_in_storage_device0 := 0
    num_heads_in_storage_device1 := 0
    num_of_sectors_before_start_partition := B4.zero
    num_of_sectors_in_file_system_extended := B4.zero
    sectors_per_fat := B4.zero
    root_directory_first_cluster := ⟨0, 0, 0, 2⟩
    volume_id_signature0 := 0
    volume_id_signature1 := 0 }

/-- An unpopulated arena slot: `entry_in_use = false`, no parent, all bytes
zero (the default-initialised `FAT32FileSystemEntry`). -/
def blankEntry : FAT32FileSystemEntry :=
  { entry_in_use := false
    parent_directory := none
    deleted_directory_entry := false
    attribute_byte := 0
    entry_type := directory_entry_t.LFN_ENTRY
    name_of_entry := fun _ => 0
    starting_cluster_address := B4.zero
    size_of_entry_in_bytes := B4.zero }

/-- 8.3 name `DIR1       ` as an 11-byte map. -/
def c10_name : Nat → Nat := fun k =>
  if k = 0 then 0x44 else if k = 1 then 0x49 else if k = 2 then 0x52
  else if k = 3 then 0x31 else if k < 11 then 0x20 else 0

/-- Arena element 0 of the C10 scenario: a slot whose `entry_in_use` flag is
`false` and whose `entry_type` is `DIRECTORY_ENTRY`, but whose name bytes
match the deletion request. -/
def c10_entry : FAT32FileSystemEntry :=
  { entry_in_use := false
    parent_directory := none
    deleted_directory_entry := false
    attribute_byte := 0x10
    entry_type := directory_entry_t.DIRECTORY_ENTRY
    name_of_entry := c10_name
    starting_cluster_address := ⟨0, 0, 0, 5⟩
    size_of_entry_in_bytes := B4.zero }

/-- Engine state of the C10 scenario: `fat_begin_lba = 10`,
`cluster_begin_lba = 100`, one sector per cluster, root at cluster 2. -/
def c10_state : FileSystemState :=
  { fat_32_master_boot_record := blankMBR
    fat_32_volume_id := baseVolumeID
    file_system_entrys := fun i => if i = 0 then c10_entry else blankEntry
    file_systems_entry_index := 1
    fat_begin_lba := ⟨0, 0, 0, 10⟩
    cluster_begin_lba := ⟨0, 0, 0, 100⟩ }

/-- Device of the C10 scenario: FAT sector at LBA 10 marks cluster 5 as
end-of-chain; the root directory sector at LBA 100 holds one slot with the
same name/attribute/cluster bytes, then the terminator. -/
def c10_dev : Device :=
  { ok := fun _ => true
    mem := fun l =>
      if l = 10 then (fun i =>
        if i = 20 then 0xF8 else if i = 21 then 0xFF
        else if i = 22 then 0xFF else if i = 23 then 0x0F else 0)
      else if l = 100 then (fun i =>
        if i < 11 then c10_name i
        else if i = 11 then 0x10
        else if i = 26 then 5
        else 0)
      else zeroSector }

def c10_result : DeleteFileResult :=
  delete_file c10_state c10_dev c10_name 0 (fun _ _ => 0) 10 10

/-- 8.3 name `BBBBBBBBBBB` (the delete target of the C3 scenario). -/
def c3_target_name : Nat → Nat := fun k => if k < 11 then 0x42 else 0

/-- Arena element 0 of the C3 scenario: an ordinary file named
`BBBBBBBBBBB`, empty (starting cluster 0), in the root. -/
def c3_entry : FAT32FileSystemEntry :=
  { entry_in_use := true
    parent_directory := none
    deleted_directory_entry := false
    attribute_byte := 0x20
    entry_type := directory_entry_t.FILE_ENTRY
    name_of_entry := c3_target_name
    starting_cluster_address := B4.zero
    size_of_entry_in_bytes := B4.zero }

def c3_state : FileSystemState :=
  { fat_32_master_boot_record := blankMBR
    fat_32_volume_id := baseVolumeID
    file_system_entrys := fun i => if i = 0 then c3_entry else blankEntry
    file_systems_entry_index := 1
    fat_begin_lba := ⟨0, 0, 0, 10⟩
    cluster_begin_lba := ⟨0, 0, 0, 100⟩ }

/-- Device of the C3 scenario: the root directory sector (LBA 100) holds in
slot 0 a different file, `AAAAAAAAAAA` (also attribute `0x20`, also
starting cluster 0), and then the terminator.  No slot named `BBBBBBBBBBB`
exists on the device. -/
def c3_dev : Device :=
  { ok := fun _ => true
    mem := fun l =>
      if l = 100 then (fun i =>
        if i < 11 then 0x41
        else if i = 11 then 0x20
        else 0)
      else zeroSector }

def c3_result : DeleteFileResult :=
  delete_file c3_state c3_dev c3_target_name 0 (fun _ _ => 0) 10 10

/-- Device of the C7 scenario: every block read fails. -/
def c7_dev : Device := { ok := fun _ => false, mem := fun _ => zeroSector }

/-- Uninitialised stack content of `volume_id_sector` in the C7 scenario:
stale bytes that happen to carry a valid `0x55AA` trailer. -/
def c7_junk : Sector := fun i =>
  if i = 510 then 0xAA else if i = 511 then 0x55 else 0

/-- Pre-construction memory of the C6 scenario: the MBR member happens to
hold `lba_begin = 50` (the constructor reads these indeterminate bytes when
the MBR read fails). -/
def c6_initMBR : FAT32MasterBootRecord :=
  ⟨⟨0, 0, 0, 0, 0, 0, 0, 0, ⟨0, 0, 0, 50⟩, B4.zero⟩, 0, 0⟩

def c6_init : FileSystemState :=
  { fat_32_master_boot_record := c6_initMBR
    fat_32_volume_id := baseVolumeID
    file_system_entrys := fun _ => blankEntry
    file_systems_entry_index := 0
    fat_begin_lba := B4.zero
    cluster_begin_lba := B4.zero }

/-- Device of the C6 scenario: the read of block 0 (the MBR) fails; the
block at LBA 50 parses as a volume ID with 10 reserved sectors, 2 FATs of
5 sectors, 1 sector per cluster and root cluster 2 (so `fat_begin = 60`,
`cluster_begin = 70`); the root directory sector at LBA 70 is empty. -/
def c6_dev : Device :=
  { ok := fun l => l != 0
    mem := fun l =>
      if l = 50 then (fun i =>
        if i = 13 then 1
        else if i = 14 then 10
        else if i = 16 then 2
        else if i = 36 then 5
        else if i = 44 then 2
        else 0)
      else zeroSector }

def c6_run : Option (FileSystemState × List DevOp) :=
  FileSystem_construct c6_dev c6_init zeroSector zeroSector 20

def c6_run_st : FileSystemState := (c6_run.getD (c6_init, [])).1

def c6_run_ops : List DevOp := (c6_run.getD (c6_init, [])).2

/-- Specification-side statement of a verified absolute path (claim C1's
wording, independent of the scan loop): starting from `cur` and path
segment `j`, each of the `remaining` steps must find an ancestor whose
11-byte name equals the corresponding (byte-masked) path segment, and after
the last step the chain must have reached "no parent" (root). -/
def SpecChain (entrys : Nat → FAT32FileSystemEntry)
    (enclosing_directory_names : Nat → Nat → Nat) :
    Nat → Nat → Option Nat → Prop
  | 0, _, cur => cur = none
  | remaining + 1, j, cur =>
    ∃ p, cur = some p ∧
      (∀ k < 11, (entrys p).name_of_entry k = enclosing_directory_names j k % 256) ∧
      SpecChain entrys enclosing_directory_names remaining (j + 1)
        (entrys p).parent_directory

/-- Specification-side statement of "arena element `i` is the delete
target": its 11-byte name equals the given file name and its parent chain
verifies the whole enclosing-directory list, ending at root. -/
def SpecResolves (entrys : Nat → FAT32FileSystemEntry) (file_name : Nat → Nat)
    (num_enclosing_directories : Nat)
    (enclosing_directory_names : Nat → Nat → Nat) (i : Nat) : Prop :=
  (∀ k < 11, (entrys i).name_of_entry k = file_name k) ∧
    SpecChain entrys enclosing_directory_names num_enclosing_directories 0
      (entrys i).parent_directory

/-- A file name (`fun _ => 1`) matching nothing in a blank arena. -/
def c1_name : Nat → Nat := fun _ => 1

/-- Engine state with a fully blank arena (nothing resolvable). -/
def c1_state : FileSystemState :=
  { fat_32_master_boot_record := blankMBR
    fat_32_volume_id := baseVolumeID
    file_system_entrys := fun _ => blankEntry
    file_systems_entry_index := 0
    fat_begin_lba := ⟨0, 0, 0, 10⟩
    cluster_begin_lba := ⟨0, 0, 0, 100⟩ }

def c1_dev : Device := { ok := fun _ => true, mem := fun _ => zeroSector }

/-- Absolute LBA of the FAT sector holding cluster `c`'s 4-byte entry
(128 entries per 512-byte sector). -/
def fat_slot_lba (fat_begin_lba : B4) (c : Nat) : Nat :=
  fat_begin_lba.toNat + c / 128

/-- Byte index of cluster `c`'s entry within its FAT sector. -/
def fat_slot_index (c : Nat) : Nat := c % 128 * 4

/-- The 4-byte little-endian FAT entry of cluster `c` as stored on device
`d`. -/
def fat_value (d : Device) (fat_begin_lba : B4) (c : Nat) : Nat :=
  d.mem (fat_slot_lba fat_begin_lba c) (fat_slot_index c) +
    256 * d.mem (fat_slot_lba fat_begin_lba c) (fat_slot_index c + 1) +
    65536 * d.mem (fat_slot_lba fat_begin_lba c) (fat_slot_index c + 2) +
    16777216 * d.mem (fat_slot_lba fat_begin_lba c) (fat_slot_index c + 3)

/-- End-of-chain test of `delete_file` (FileSystem.cpp:228-231) expressed on
the 32-bit value: high byte at least `0xF` and low three bytes at least
`0xFFFFF8`. -/
def IsEocValue (v : Nat) : Prop :=
  0xF ≤ v / 16777216 ∧ v / 65536 % 256 = 0xFF ∧ v / 256 % 256 = 0xFF ∧
    0xF8 ≤ v % 256

instance (v : Nat) : Decidable (IsEocValue v) := by
  unfold IsEocValue; infer_instance

/-- Membership of device byte `(lba, i)` in the FAT slots of the given
cluster list. -/
def FatSlotByte (fat_begin_lba : B4) (chain : List Nat) (lba i : Nat) : Prop :=
  ∃ c ∈ chain, lba = fat_slot_lba fat_begin_lba c ∧
    ∃ k < 4, i = fat_slot_index c + k

/-- Device of the C2 witness: the FAT sector at LBA 10 stores the chain
`5 → 9 → 14 → end-of-chain` (slot byte indexes 20, 36, 56). -/
def c2_dev : Device :=
  { ok := fun _ => true
    mem := fun l =>
      if l = 10 then (fun i =>
        if i = 20 then 9 else if i = 36 then 14
        else if i = 56 then 0xF8 else if i = 57 then 0xFF
        else if i = 58 then 0xFF else if i = 59 then 0x0F
        else 0)
      else zeroSector }

/-- The device after one FAT-chain-freeing iteration targeting the 4-byte
slot at byte index `idx` of sector `L`: that sector is rewritten with the
slot zeroed, all else unchanged. -/
def fat_zero_slot_dev (d : Device) (L idx : Nat) : Device :=
  { ok := d.ok
    mem := fun l =>
      if l = L then
        (fun j => if j = idx ∨ j = idx + 1 ∨ j = idx + 2 ∨ j = idx + 3 then 0
                  else d.mem L j)
      else d.mem l }

/-- The FAT phase of the C10 scenario's deletion, taken on its own. -/
def c10_fat_run : Option (Device × List DevOp) :=
  fat_chain_free_loop c10_state.fat_begin_lba 10 c10_dev
    (c10_state.file_system_entrys 0).starting_cluster_address

/-- Master-boot-record sector of the C8 device (LBA 0): partition 1
begins at LBA 1. -/
def c8_mbr_sec : Sector := fun i => if i = 454 then 1 else 0

/-- Volume-ID sector of the C8 device (LBA 1): one sector per cluster,
99 reserved sectors, zero FATs and root directory at cluster 2, so
`cluster_begin_lba` is 100 and the root directory starts at sector 100. -/
def c8_vol_sec : Sector :=
  fun i => if i = 13 then 1 else if i = 14 then 99 else if i = 44 then 2 else 0

/-- Root-directory sector of the C8 device (LBA 100): slot 0 is a
subdirectory named `A...` (attribute 0x10, starting cluster 3 = sector
101), slot 1 is a file named `B...` (attribute 0x20), slot 2 is the
end-of-directory terminator. -/
def c8_root_sec : Sector :=
  fun i =>
    if i = 0 then 0x41 else if i = 11 then 0x10 else if i = 26 then 3
    else if i = 32 then 0x42 else if i = 43 then 0x20 else 0

/-- The sector of the C8 subdirectory (LBA 101, cluster 3): slot 0 is a
file named `C...` (attribute 0x20), slot 1 is the terminator. -/
def c8_sub_sec : Sector :=
  fun i => if i = 0 then 0x43 else if i = 11 then 0x20 else 0

/-- The C8 device: boot sectors plus a two-level directory tree. -/
def c8_dev : Device :=
  { ok := fun _ => true
    mem := fun l =>
      if l = 0 then c8_mbr_sec else if l = 1 then c8_vol_sec
      else if l = 100 then c8_root_sec else if l = 101 then c8_sub_sec
      else zeroSector }

/-- Constructing the engine on the C8 device. -/
def c8_run : Option (FileSystemState × List DevOp) :=
  FileSystem_construct c8_dev c1_state zeroSector zeroSector 30

/-- The engine state built on the C8 device. -/
def c8_run_st : FileSystemState := (c8_run.getD (c1_state, [])).1

/-- The operation log of the C8 construction. -/
def c8_run_ops : List DevOp := (c8_run.getD (c1_state, [])).2

theorem B4.mk_toNat (a b c d : Nat) :
    (⟨a, b, c, d⟩ : B4).toNat = a * 16777216 + b * 65536 + c * 256 + d := rfl
theorem B4.mk_isByte (a b c d : Nat) :
    (⟨a, b, c, d⟩ : B4).IsByte ↔ a < 256 ∧ b < 256 ∧ c < 256 ∧ d < 256 := Iff.rfl
theorem B4.toNat_lt_of_isByte (x : B4) (h : x.IsByte) : x.toNat < 4294967296 := by
  unfold B4.IsByte at h
  unfold B4.toNat
  omega
theorem add_4_byte_numbers_toNat (a b : B4) (ha : a.IsByte) (hb : b.IsByte) :
    (add_4_byte_numbers a b).toNat = (a.toNat + b.toNat) % 4294967296 := by
  obtain ⟨a0, a1, a2, a3⟩ := a
  obtain ⟨b0, b1, b2, b3⟩ := b
  obtain ⟨ha0, ha1, ha2, ha3⟩ := ha
  obtain ⟨hb0, hb1, hb2, hb3⟩ := hb
  simp only [add_4_byte_numbers, B4.toNat] at *
  split <;> split <;> split <;> split <;> omega
theorem add_4_byte_numbers_isByte (a b : B4) (ha : a.IsByte) (hb : b.IsByte) :
    (add_4_byte_numbers a b).IsByte := by
  obtain ⟨a0, a1, a2, a3⟩ := a
  obtain ⟨b0, b1, b2, b3⟩ := b
  obtain ⟨ha0, ha1, ha2, ha3⟩ := ha
  obtain ⟨hb0, hb1, hb2, hb3⟩ := hb
  simp only [add_4_byte_numbers, B4.IsByte] at *
  split <;> split <;> split <;> split <;> omega
theorem subtract_4_byte_numbers_toNat (a b : B4) (ha : a.IsByte) (hb : b.IsByte)
    (hle : b.toNat ≤ a.toNat) :
    (subtract_4_byte_numbers a b).toNat = a.toNat - b.toNat := by
  obtain ⟨a0, a1, a2, a3⟩ := a
  obtain ⟨b0, b1, b2, b3⟩ := b
  obtain ⟨ha0, ha1, ha2, ha3⟩ := ha
  obtain ⟨hb0, hb1, hb2, hb3⟩ := hb
  simp only [subtract_4_byte_numbers, B4.toNat] at *
  split <;> split <;> split <;> split <;> omega
theorem subtract_4_byte_numbers_isByte (a b : B4) (ha : a.IsByte) (hb : b.IsByte) :
    (subtract_4_byte_numbers a b).IsByte := by
  obtain ⟨a0, a1, a2, a3⟩ := a
  obtain ⟨b0, b1, b2, b3⟩ := b
  obtain ⟨ha0, ha1, ha2, ha3⟩ := ha
  obtain ⟨hb0, hb1, hb2, hb3⟩ := hb
  simp only [subtract_4_byte_numbers, B4.IsByte] at *
  split <;> split <;> split <;> split <;> omega
/-- Subtracting `B4.one` from a non-zero quantity decreases its value by one,
for arbitrary (not necessarily byte-valid) slot contents; used for
termination of the repeated-addition loops. -/
theorem subtract_one_toNat (a : B4) (h : ¬(a.b0 = 0 ∧ a.b1 = 0 ∧ a.b2 = 0 ∧ a.b3 = 0)) :
    (subtract_4_byte_numbers a B4.one).toNat + 1 = a.toNat ∧
      (subtract_4_byte_numbers a B4.one).toNat < a.toNat := by
  obtain ⟨a0, a1, a2, a3⟩ := a
  simp only [subtract_4_byte_numbers, B4.one, B4.toNat] at *
  split <;> split <;> split <;> split <;> omega
/-- Subtracting 128 when the remainder test of
`calculate_fat_sector_offset_from_cluster_number` fails decreases the value
by 128, again for arbitrary slot contents. -/
theorem subtract_128_toNat (a : B4) (h : ¬(a.b0 = 0 ∧ a.b1 = 0 ∧ a.b2 = 0 ∧ a.b3 ≤ 127)) :
    (subtract_4_byte_numbers a ⟨0, 0, 0, 128⟩).toNat + 128 = a.toNat ∧
      (subtract_4_byte_numbers a ⟨0, 0, 0, 128⟩).toNat < a.toNat := by
  obtain ⟨a0, a1, a2, a3⟩ := a
  simp only [subtract_4_byte_numbers, B4.toNat] at *
  split <;> split <;> split <;> split <;> omega
theorem sector_address_mul_loop_fuel_toNat (fuel : Nat) :
    ∀ cnt acc spc4 : B4, cnt.toNat < fuel → cnt.IsByte → acc.IsByte → spc4.IsByte →
      (sector_address_mul_loop_fuel fuel cnt acc spc4).toNat
          = (acc.toNat + cnt.toNat * spc4.toNat) % 4294967296 ∧
        (sector_address_mul_loop_fuel fuel cnt acc spc4).IsByte := by
  induction fuel with
  | zero =>
    intro cnt acc spc4 hfuel
    exact absurd hfuel (Nat.not_lt_zero _)
  | succ fuel ih =>
    intro cnt acc spc4 hfuel hcnt hacc hspc
    rw [sector_address_mul_loop_fuel]
    split
    · rename_i hz
      have hzero : B4.toNat cnt = 0 := by
        obtain ⟨cb0, cb1, cb2, cb3⟩ := cnt
        simp only at hz
        simp only [B4.toNat]
        omega
      rw [hzero, Nat.zero_mul, Nat.add_zero,
        Nat.mod_eq_of_lt (B4.toNat_lt_of_isByte acc hacc)]
      exact ⟨rfl, hacc⟩
    · rename_i hz
      have hdec := subtract_one_toNat cnt hz
      have hcnt' := subtract_4_byte_numbers_isByte cnt B4.one hcnt (by
        simp only [B4.one, B4.IsByte]; omega)
      have hacc' := add_4_byte_numbers_isByte spc4 acc hspc hacc
      have hstep := add_4_byte_numbers_toNat spc4 acc hspc hacc
      have hlt : (subtract_4_byte_numbers cnt B4.one).toNat < fuel := by omega
      have := ih (subtract_4_byte_numbers cnt B4.one) (add_4_byte_numbers spc4 acc)
        spc4 hlt hcnt' hacc' hspc
      refine ⟨?_, this.2⟩
      rw [this.1, hstep, Nat.mod_add_mod]
      have hc : cnt.toNat = (subtract_4_byte_numbers cnt B4.one).toNat + 1 := by omega
      rw [hc]
      have harith : spc4.toNat + acc.toNat
            + (subtract_4_byte_numbers cnt B4.one).toNat * spc4.toNat
          = acc.toNat + ((subtract_4_byte_numbers cnt B4.one).toNat + 1) * spc4.toNat := by
        ring
      rw [harith]
theorem sector_address_mul_loop_toNat (cnt acc spc4 : B4)
    (hcnt : cnt.IsByte) (hacc : acc.IsByte) (hspc : spc4.IsByte) :
    (sector_address_mul_loop cnt acc spc4).toNat
        = (acc.toNat + cnt.toNat * spc4.toNat) % 4294967296 ∧
      (sector_address_mul_loop cnt acc spc4).IsByte :=
  sector_address_mul_loop_fuel_toNat (cnt.toNat + 1) cnt acc spc4
    (Nat.lt_succ_self _) hcnt hacc hspc
theorem fat_offset_div_loop_fuel_toNat (fuel : Nat) :
    ∀ cnt off : B4, cnt.toNat < fuel → cnt.IsByte → off.IsByte →
      off.toNat + cnt.toNat / 128 < 4294967296 →
      (fat_offset_div_loop_fuel fuel cnt off).1.toNat = off.toNat + cnt.toNat / 128 ∧
        (fat_offset_div_loop_fuel fuel cnt off).2 = cnt.toNat % 128 * 4 ∧
        (fat_offset_div_loop_fuel fuel cnt off).1.IsByte := by
  induction fuel with
  | zero =>
    intro cnt off hfuel
    exact absurd hfuel (Nat.not_lt_zero _)
  | succ fuel ih =>
    intro cnt off hfuel hcnt hoff hbound
    rw [fat_offset_div_loop_fuel]
    split
    · rename_i hz
      have hsmall : cnt.toNat ≤ 127 ∧ cnt.toNat = cnt.b3 := by
        obtain ⟨cb0, cb1, cb2, cb3⟩ := cnt
        simp only at hz ⊢
        simp only [B4.toNat]
        omega
      refine ⟨?_, ?_, hoff⟩
      · show off.toNat = off.toNat + cnt.toNat / 128
        omega
      · show cnt.b3 * 4 = cnt.toNat % 128 * 4
        omega
    · rename_i hz
      have hdec := subtract_128_toNat cnt hz
      have hcnt' := subtract_4_byte_numbers_isByte cnt ⟨0, 0, 0, 128⟩ hcnt (by
        simp only [B4.IsByte]; omega)
      have hoff' := add_4_byte_numbers_isByte off B4.one hoff (by
        simp only [B4.one, B4.IsByte]; omega)
      have hofftn := add_4_byte_numbers_toNat off B4.one hoff (by
        simp only [B4.one, B4.IsByte]; omega)
      have hoffsmall : off.toNat + 1 < 4294967296 := by omega
      have hone : B4.one.toNat = 1 := rfl
      have hofftn' : (add_4_byte_numbers off B4.one).toNat = off.toNat + 1 := by
        rw [hofftn, hone]
        omega
      have hlt : (subtract_4_byte_numbers cnt ⟨0, 0, 0, 128⟩).toNat < fuel := by omega
      have := ih (subtract_4_byte_numbers cnt ⟨0, 0, 0, 128⟩) (add_4_byte_numbers off B4.one)
        hlt hcnt' hoff' (by rw [hofftn']; omega)
      refine ⟨?_, ?_, this.2.2⟩
      · rw [this.1, hofftn']
        omega
      · rw [this.2.1]
        omega
theorem fat_offset_div_loop_toNat (cnt off : B4)
    (hcnt : cnt.IsByte) (hoff : off.IsByte)
    (hbound : off.toNat + cnt.toNat / 128 < 4294967296) :
    (fat_offset_div_loop cnt off).1.toNat = off.toNat + cnt.toNat / 128 ∧
      (fat_offset_div_loop cnt off).2 = cnt.toNat % 128 * 4 ∧
      (fat_offset_div_loop cnt off).1.IsByte :=
  fat_offset_div_loop_fuel_toNat (cnt.toNat + 1) cnt off
    (Nat.lt_succ_self _) hcnt hoff hbound
/-- C4: for every volume geometry and every 4-byte big-endian cluster number
`n` with `n ≥ 2`, `calculate_sector_address_from_cluster_number` returns
`cluster_begin_lba + (n - 2) * sectors_per_cluster` (arithmetic modulo
`2^32`), the multiplication being realized as `(n - 2)` repeated additions
of `sectors_per_cluster`. -/
theorem claim_C4_cluster_to_sector
    (cluster_begin_lba : B4) (sectors_per_cluster : Nat) (n : B4)
    (hcb : cluster_begin_lba.IsByte) (hspc : sectors_per_cluster < 256)
    (hn : n.IsByte) (h2 : 2 ≤ n.toNat) :
    (calculate_sector_address_from_cluster_number
        cluster_begin_lba sectors_per_cluster n).toNat
      = (cluster_begin_lba.toNat + (n.toNat - 2) * sectors_per_cluster)
          % 4294967296 := by
  unfold calculate_sector_address_from_cluster_number
  have htwo : (⟨0, 0, 0, 2⟩ : B4).IsByte := by decide
  have htwotn : (⟨0, 0, 0, 2⟩ : B4).toNat = 2 := rfl
  have hspc4 : (⟨0, 0, 0, sectors_per_cluster⟩ : B4).IsByte := by
    rw [B4.mk_isByte]
    omega
  have hspc4tn : (⟨0, 0, 0, sectors_per_cluster⟩ : B4).toNat = sectors_per_cluster := by
    rw [B4.mk_toNat]
    omega
  have hsubtn := subtract_4_byte_numbers_toNat n ⟨0, 0, 0, 2⟩ hn htwo
    (by rw [htwotn]; omega)
  have hsubbyte := subtract_4_byte_numbers_isByte n ⟨0, 0, 0, 2⟩ hn htwo
  have hzero : (B4.zero).IsByte := by decide
  have hzerotn : (B4.zero).toNat = 0 := rfl
  have hmul := sector_address_mul_loop_toNat
    (subtract_4_byte_numbers n ⟨0, 0, 0, 2⟩) B4.zero
    ⟨0, 0, 0, sectors_per_cluster⟩ hsubbyte hzero hspc4
  have hadd := add_4_byte_numbers_toNat cluster_begin_lba
    (sector_address_mul_loop (subtract_4_byte_numbers n ⟨0, 0, 0, 2⟩) B4.zero
      ⟨0, 0, 0, sectors_per_cluster⟩) hcb hmul.2
  rw [hadd, hmul.1, hsubtn, htwotn, hspc4tn, hzerotn, Nat.zero_add,
    Nat.add_mod_mod]
/-- C5: for every 4-byte big-endian cluster number `n`, with the
caller-supplied offset accumulator initialized to zero,
`calculate_fat_sector_offset_from_cluster_number` terminates and yields a
FAT sector offset equal to `n / 128` and an in-sector byte index equal to
`(n % 128) * 4`. -/
theorem claim_C5_cluster_to_fat_location (n : B4) (hn : n.IsByte) :
    (calculate_fat_sector_offset_from_cluster_number n B4.zero).1.toNat
        = n.toNat / 128 ∧
      (calculate_fat_sector_offset_from_cluster_number n B4.zero).2
        = n.toNat % 128 * 4 := by
  unfold calculate_fat_sector_offset_from_cluster_number
  have hzero : (B4.zero).IsByte := by decide
  have hzerotn : (B4.zero).toNat = 0 := rfl
  have hbound : (B4.zero).toNat + n.toNat / 128 < 4294967296 := by
    have := B4.toNat_lt_of_isByte n hn
    have : n.toNat / 128 ≤ n.toNat := Nat.div_le_self _ _
    omega
  have := fat_offset_div_loop_toNat n B4.zero hn hzero hbound
  rw [hzerotn] at this
  exact ⟨by rw [this.1, Nat.zero_add], this.2.1⟩
/-- Witness for `claim_C4_cluster_to_sector`: the geometry of the spec's
worked scenario (`cluster_begin_lba = 0x0F70`, 8 sectors per cluster) at
cluster number 10. -/
theorem claim_C4_cluster_to_sector_witness :
    (⟨0, 0, 0x0F, 0x70⟩ : B4).IsByte ∧ 8 < 256 ∧ (⟨0, 0, 0, 10⟩ : B4).IsByte ∧
      2 ≤ (⟨0, 0, 0, 10⟩ : B4).toNat ∧
      (calculate_sector_address_from_cluster_number
          ⟨0, 0, 0x0F, 0x70⟩ 8 ⟨0, 0, 0, 10⟩).toNat
        = ((⟨0, 0, 0x0F, 0x70⟩ : B4).toNat
            + ((⟨0, 0, 0, 10⟩ : B4).toNat - 2) * 8) % 4294967296 :=
  ⟨by decide, by decide, by decide, by decide,
    claim_C4_cluster_to_sector ⟨0, 0, 0x0F, 0x70⟩ 8 ⟨0, 0, 0, 10⟩
      (by decide) (by decide) (by decide) (by decide)⟩
/-- Witness for `claim_C5_cluster_to_fat_location`: cluster number 5000
(`0x1388`), whose FAT location is sector offset 39, byte index 32. -/
theorem claim_C5_cluster_to_fat_location_witness :
    (⟨0, 0, 0x13, 0x88⟩ : B4).IsByte ∧
      (calculate_fat_sector_offset_from_cluster_number
          ⟨0, 0, 0x13, 0x88⟩ B4.zero).1.toNat
        = (⟨0, 0, 0x13, 0x88⟩ : B4).toNat / 128 ∧
      (calculate_fat_sector_offset_from_cluster_number
          ⟨0, 0, 0x13, 0x88⟩ B4.zero).2
        = (⟨0, 0, 0x13, 0x88⟩ : B4).toNat % 128 * 4 :=
  ⟨by decide,
    (claim_C5_cluster_to_fat_location ⟨0, 0, 0x13, 0x88⟩ (by decide)).1,
    (claim_C5_cluster_to_fat_location ⟨0, 0, 0x13, 0x88⟩ (by decide)).2⟩

/-- C9: `delete_file` never mutates the engine's in-memory state: whatever
the outcome (success, failure, or running out of the step budget), every
arena element, the parsed MBR, the volume descriptor and the derived
`fat_begin_lba`/`cluster_begin_lba` are identical before and after the call
- the source performs no member write anywhere in FileSystem.cpp:70-396, so
the state is threaded through unchanged and only the device is mutated. -/
theorem claim_C9_delete_file_preserves_memory
    (s : FileSystemState) (d : Device) (file_name : Nat → Nat)
    (num_enclosing_directories : Nat)
    (enclosing_directory_names : Nat → Nat → Nat) (fat_fuel dir_fuel : Nat) :
    (delete_file s d file_name num_enclosing_directories
        enclosing_directory_names fat_fuel dir_fuel).fs = s := by
  unfold delete_file
  split
  · rfl
  · dsimp only
    split
    · rfl
    · split
      · rfl
      · rfl

/-- C10: the resolution scan of `delete_file` compares only name bytes and
the parent chain, never `entry_in_use` or `entry_type`; in this concrete
scenario it resolves an arena slot that is both unpopulated
(`entry_in_use = false`) and typed as a directory, then frees its FAT
chain and tombstones a directory slot for it exactly as for a file,
returning success. -/
theorem claim_C10_resolution_ignores_entry_flags :
    (c10_state.file_system_entrys 0).entry_in_use = false ∧
      (c10_state.file_system_entrys 0).entry_type
        = directory_entry_t.DIRECTORY_ENTRY ∧
      delete_file_resolve c10_state.file_system_entrys c10_name 0
        (fun _ _ => 0) = some 0 ∧
      c10_result.ret = some true ∧
      c10_result.fat_ops = [DevOp.read 10, DevOp.write 10] ∧
      c10_result.dir_ops = [DevOp.read 100, DevOp.write 100] ∧
      c10_result.dev.mem 10 20 = 0 ∧
      c10_result.dev.mem 100 0 = 0xE5 := by
  refine ⟨rfl, rfl, by decide, by decide, by decide, by decide, by decide, by decide⟩

/-- C3 is violated by the code: in this scenario the resolved element is
named `BBBBBBBBBBB` but the only on-device slot is named `AAAAAAAAAAA`
(same attribute byte `0x20`, same starting-cluster bytes).  The claim says
a slot is rewritten only when the 11-byte name also matches; the code
rewrites the `AAAAAAAAAAA` slot anyway (its first byte becomes `0xE5`) and
returns success, because the name-comparison loop at FileSystem.cpp:346-353
`continue`s only its own inner loop and therefore never skips a slot. -/
theorem claim_C3_tombstone_ignores_name :
    (c3_state.file_system_entrys 0).name_of_entry 0 = 0x42 ∧
      c3_dev.mem 100 0 = 0x41 ∧
      delete_file_resolve c3_state.file_system_entrys c3_target_name 0
        (fun _ _ => 0) = some 0 ∧
      c3_result.ret = some true ∧
      c3_result.fat_ops = [] ∧
      c3_result.dir_ops = [DevOp.read 100, DevOp.write 100] ∧
      c3_result.dev.mem 100 0 = 0xE5 := by
  refine ⟨rfl, rfl, by decide, by decide, by decide, by decide, by decide⟩

/-- C7 as stated is violated by the code: here every device read fails, yet
`read_fat_32_volume_id` returns success because the stale buffer happens to
carry a valid `0x55AA` trailer - the `cmd17` response is stored but never
examined (FileSystem.cpp:459-461). -/
theorem claim_C7_counterexample :
    c7_dev.ok B4.zero.toNat = false ∧
      (read_fat_32_volume_id c7_dev B4.zero baseVolumeID c7_junk).1 = true := by
  exact ⟨rfl, by decide⟩

/-- C7 (amended): `read_fat_32_volume_id` succeeds exactly when the
trailing two-byte signature of the buffer it ends up with - the device
sector when the read succeeds, the caller's prior (uninitialised) buffer
content when it fails - is `0x55,0xAA` in either byte order; the device
response itself is ignored, so a failed read alone never causes failure. -/
theorem claim_C7_volume_id_fails_on_signature_only
    (d : Device) (block_address : B4) (vol0 : FAT32VolumeID) (junk : Sector) :
    (read_fat_32_volume_id d block_address vol0 junk).1 = true ↔
      (((d.send_cmd17 junk block_address).2 511 = 0x55 ∧
          (d.send_cmd17 junk block_address).2 510 = 0xAA) ∨
        ((d.send_cmd17 junk block_address).2 511 = 0xAA ∧
          (d.send_cmd17 junk block_address).2 510 = 0x55)) := by
  unfold read_fat_32_volume_id
  dsimp only
  rw [decide_eq_true_eq]

/-- C6 as stated is violated by the code: on this device the MBR read
fails, yet construction continues - the volume ID is read from the stale
`lba_begin` (50), `fat_begin_lba`/`cluster_begin_lba` are derived (60/70),
the directory tree is scanned (the read at LBA 70), and a fully-populated
engine is returned. -/
theorem claim_C6_counterexample :
    c6_dev.ok 0 = false ∧
      c6_run.map (fun r =>
          (r.2, r.1.fat_begin_lba, r.1.cluster_begin_lba,
            r.1.file_systems_entry_index))
        = some ([DevOp.read 0, DevOp.read 50, DevOp.read 70],
            ⟨0, 0, 0, 60⟩, ⟨0, 0, 0, 70⟩, 0) := by
  exact ⟨rfl, by decide⟩

/-- C6 (amended): construction never aborts on a boot-sector failure - the
Boolean results of the MBR and volume-ID reads are discarded.  Whenever the
MBR read fails and construction completes, the MBR member keeps its prior
(indeterminate) content, the volume ID is still read at that stale
`lba_begin`, both geometry constants are still derived from the parsed
values, and the directory-tree scan still runs. -/
theorem claim_C6_construction_never_aborts
    (d : Device) (init : FileSystemState) (junk_mbr junk_vol : Sector)
    (fuel : Nat) (st : FileSystemState) (ops : List DevOp)
    (hfail : d.ok 0 = false)
    (hrun : FileSystem_construct d init junk_mbr junk_vol fuel = some (st, ops)) :
    st.fat_32_master_boot_record = init.fat_32_master_boot_record ∧
      st.fat_32_volume_id = (read_fat_32_volume_id d
        init.fat_32_master_boot_record.primary_partition_1.lba_begin
        init.fat_32_volume_id junk_vol).2.1 ∧
      st.fat_begin_lba = add_4_byte_numbers
        init.fat_32_master_boot_record.primary_partition_1.lba_begin
        ⟨0, 0, st.fat_32_volume_id.size_of_reserved_area_sectors0,
          st.fat_32_volume_id.size_of_reserved_area_sectors1⟩ ∧
      st.cluster_begin_lba = add_4_byte_numbers st.fat_begin_lba
        (total_fat_sectors_loop st.fat_32_volume_id.sectors_per_fat
          st.fat_32_volume_id.number_of_fats) ∧
      ∃ tree_ops, ops = DevOp.read 0 :: DevOp.read
          init.fat_32_master_boot_record.primary_partition_1.lba_begin.toNat
          :: tree_ops := by
  have h0 : B4.zero.toNat = 0 := rfl
  have hm : read_fat32_master_boot_record d init.fat_32_master_boot_record junk_mbr
      = (false, init.fat_32_master_boot_record, [DevOp.read 0]) := by
    unfold read_fat32_master_boot_record Device.send_cmd17
    rw [h0, hfail]
    simp
  unfold FileSystem_construct at hrun
  rw [hm] at hrun
  dsimp only at hrun
  cases hr : read_directory_recursive d
      (add_4_byte_numbers
        (add_4_byte_numbers init.fat_32_master_boot_record.primary_partition_1.lba_begin
          ⟨0, 0,
            (read_fat_32_volume_id d
              init.fat_32_master_boot_record.primary_partition_1.lba_begin
              init.fat_32_volume_id junk_vol).2.1.size_of_reserved_area_sectors0,
            (read_fat_32_volume_id d
              init.fat_32_master_boot_record.primary_partition_1.lba_begin
              init.fat_32_volume_id junk_vol).2.1.size_of_reserved_area_sectors1⟩)
        (total_fat_sectors_loop
          (read_fat_32_volume_id d
            init.fat_32_master_boot_record.primary_partition_1.lba_begin
            init.fat_32_volume_id junk_vol).2.1.sectors_per_fat
          (read_fat_32_volume_id d
            init.fat_32_master_boot_record.primary_partition_1.lba_begin
            init.fat_32_volume_id junk_vol).2.1.number_of_fats))
      (read_fat_32_volume_id d
        init.fat_32_master_boot_record.primary_partition_1.lba_begin
        init.fat_32_volume_id junk_vol).2.1.sectors_per_cluster fuel
      (calculate_sector_address_from_cluster_number
        (add_4_byte_numbers
          (add_4_byte_numbers init.fat_32_master_boot_record.primary_partition_1.lba_begin
            ⟨0, 0,
              (read_fat_32_volume_id d
                init.fat_32_master_boot_record.primary_partition_1.lba_begin
                init.fat_32_volume_id junk_vol).2.1.size_of_reserved_area_sectors0,
              (read_fat_32_volume_id d
                init.fat_32_master_boot_record.primary_partition_1.lba_begin
                init.fat_32_volume_id junk_vol).2.1.size_of_reserved_area_sectors1⟩)
          (total_fat_sectors_loop
            (read_fat_32_volume_id d
              init.fat_32_master_boot_record.primary_partition_1.lba_begin
              init.fat_32_volume_id junk_vol).2.1.sectors_per_fat
            (read_fat_32_volume_id d
              init.fat_32_master_boot_record.primary_partition_1.lba_begin
              init.fat_32_volume_id junk_vol).2.1.number_of_fats))
        (read_fat_32_volume_id d
          init.fat_32_master_boot_record.primary_partition_1.lba_begin
          init.fat_32_volume_id junk_vol).2.1.sectors_per_cluster
        (read_fat_32_volume_id d
          init.fat_32_master_boot_record.primary_partition_1.lba_begin
          init.fat_32_volume_id junk_vol).2.1.root_directory_first_cluster)
      zeroSector none ⟨init.file_system_entrys, 0⟩ with
  | none =>
    rw [hr] at hrun
    exact absurd hrun (by simp)
  | some pair =>
    rw [hr] at hrun
    simp only [Option.some.injEq, Prod.mk.injEq] at hrun
    obtain ⟨hst, hops⟩ := hrun
    subst hst
    refine ⟨rfl, rfl, rfl, rfl, pair.2, ?_⟩
    rw [← hops]
    rfl

/-- Witness for `claim_C6_construction_never_aborts` on the concrete C6
device, whose MBR read fails while construction completes. -/
theorem claim_C6_construction_never_aborts_witness :
    c6_run_st.fat_32_master_boot_record = c6_init.fat_32_master_boot_record ∧
      c6_run_st.fat_32_volume_id = (read_fat_32_volume_id c6_dev
        c6_init.fat_32_master_boot_record.primary_partition_1.lba_begin
        c6_init.fat_32_volume_id zeroSector).2.1 ∧
      c6_run_st.fat_begin_lba = add_4_byte_numbers
        c6_init.fat_32_master_boot_record.primary_partition_1.lba_begin
        ⟨0, 0, c6_run_st.fat_32_volume_id.size_of_reserved_area_sectors0,
          c6_run_st.fat_32_volume_id.size_of_reserved_area_sectors1⟩ ∧
      c6_run_st.cluster_begin_lba = add_4_byte_numbers c6_run_st.fat_begin_lba
        (total_fat_sectors_loop c6_run_st.fat_32_volume_id.sectors_per_fat
          c6_run_st.fat_32_volume_id.number_of_fats) ∧
      ∃ tree_ops, c6_run_ops = DevOp.read 0 :: DevOp.read
          c6_init.fat_32_master_boot_record.primary_partition_1.lba_begin.toNat
          :: tree_ops :=
  claim_C6_construction_never_aborts c6_dev c6_init zeroSector zeroSector 20
    c6_run_st c6_run_ops rfl rfl

theorem entry_name_matches_iff (e : FAT32FileSystemEntry) (nm : Nat → Nat) :
    entry_name_matches e nm = true ↔ ∀ k < 11, e.name_of_entry k = nm k := by
  simp [entry_name_matches, List.all_eq_true, List.mem_range]

theorem enclosing_name_matches_iff (e : FAT32FileSystemEntry) (seg : Nat → Nat) :
    enclosing_name_matches e seg = true ↔
      ∀ k < 11, e.name_of_entry k = seg k % 256 := by
  simp [enclosing_name_matches, List.all_eq_true, List.mem_range]

/-- The parent-chain walk of the source computes exactly the
specification-side path condition: `absolute_path_match` together with a
final `nullptr` parent is equivalent to `SpecChain`. -/
theorem verify_enclosing_path_iff (entrys : Nat → FAT32FileSystemEntry)
    (dirs : Nat → Nat → Nat) :
    ∀ (remaining j : Nat) (cur : Option Nat),
      ((verify_enclosing_path entrys dirs remaining j cur).1 = true ∧
          (verify_enclosing_path entrys dirs remaining j cur).2 = none) ↔
        SpecChain entrys dirs remaining j cur := by
  intro remaining
  induction remaining with
  | zero =>
    intro j cur
    simp [verify_enclosing_path, SpecChain]
  | succ remaining ih =>
    intro j cur
    cases cur with
    | none => simp [verify_enclosing_path, SpecChain]
    | some p =>
      by_cases hm : enclosing_name_matches (entrys p) (dirs j) = true
      · have hv : verify_enclosing_path entrys dirs (remaining + 1) j (some p)
            = verify_enclosing_path entrys dirs remaining (j + 1)
                (entrys p).parent_directory := by
          conv_lhs => unfold verify_enclosing_path
          dsimp only
          rw [if_pos hm]
        rw [hv, ih (j + 1) (entrys p).parent_directory]
        constructor
        · intro hc
          exact ⟨p, rfl, (enclosing_name_matches_iff _ _).mp hm, hc⟩
        · rintro ⟨p', hp', _, hc⟩
          obtain rfl : p = p' := Option.some.inj hp'
          exact hc
      · have hv : verify_enclosing_path entrys dirs (remaining + 1) j (some p)
            = (false, some p) := by
          conv_lhs => unfold verify_enclosing_path
          dsimp only
          rw [if_neg hm]
        rw [hv]
        constructor
        · rintro ⟨h, -⟩
          exact absurd h (by simp)
        · rintro ⟨p', hp', hn, -⟩
          obtain rfl : p = p' := Option.some.inj hp'
          exact absurd ((enclosing_name_matches_iff _ _).mpr hn) hm

/-- The source's Boolean match condition for one arena slot agrees with the
specification-side predicate `SpecResolves`. -/
theorem delete_target_matches_iff (entrys : Nat → FAT32FileSystemEntry)
    (nm : Nat → Nat) (num : Nat) (dirs : Nat → Nat → Nat) (i : Nat) :
    delete_target_matches entrys nm num dirs i = true ↔
      SpecResolves entrys nm num dirs i := by
  unfold delete_target_matches SpecResolves
  rw [Bool.and_eq_true, entry_name_matches_iff]
  refine and_congr Iff.rfl ?_
  by_cases h : num = 0 ∧ (entrys i).parent_directory = none
  · rw [if_pos h]
    obtain ⟨h0, hp⟩ := h
    subst h0
    rw [hp]
    simp [SpecChain]
  · rw [if_neg h]
    dsimp only
    rw [Bool.and_eq_true, beq_iff_eq]
    exact verify_enclosing_path_iff entrys dirs num 0 (entrys i).parent_directory

theorem delete_file_resolve_scan_some (entrys : Nat → FAT32FileSystemEntry)
    (nm : Nat → Nat) (num : Nat) (dirs : Nat → Nat → Nat) :
    ∀ remaining i k,
      delete_file_resolve_scan entrys nm num dirs remaining i = some k →
      i ≤ k ∧ k < i + remaining ∧
        delete_target_matches entrys nm num dirs k = true ∧
        ∀ j, i ≤ j → j < k → delete_target_matches entrys nm num dirs j = false := by
  intro remaining
  induction remaining with
  | zero =>
    intro i k h
    exact absurd h (by simp [delete_file_resolve_scan])
  | succ remaining ih =>
    intro i k h
    unfold delete_file_resolve_scan at h
    by_cases hm : delete_target_matches entrys nm num dirs i = true
    · rw [if_pos hm] at h
      obtain rfl : i = k := Option.some.inj h
      exact ⟨Nat.le_refl _, by omega, hm, fun j hj1 hj2 => by omega⟩
    · rw [if_neg hm] at h
      obtain ⟨h1, h2, h3, h4⟩ := ih (i + 1) k h
      refine ⟨by omega, by omega, h3, ?_⟩
      intro j hj1 hj2
      rcases Nat.eq_or_lt_of_le hj1 with rfl | hlt
      · simpa using hm
      · exact h4 j hlt hj2

theorem delete_file_resolve_scan_none (entrys : Nat → FAT32FileSystemEntry)
    (nm : Nat → Nat) (num : Nat) (dirs : Nat → Nat → Nat) :
    ∀ remaining i,
      delete_file_resolve_scan entrys nm num dirs remaining i = none →
      ∀ j, i ≤ j → j < i + remaining →
        delete_target_matches entrys nm num dirs j = false := by
  intro remaining
  induction remaining with
  | zero =>
    intro i _ j _ hj
    omega
  | succ remaining ih =>
    intro i h j hj1 hj2
    unfold delete_file_resolve_scan at h
    by_cases hm : delete_target_matches entrys nm num dirs i = true
    · rw [if_pos hm] at h
      exact absurd h (by simp)
    · rw [if_neg hm] at h
      rcases Nat.eq_or_lt_of_le hj1 with rfl | hlt
      · simpa using hm
      · exact ih (i + 1) h j hlt (by omega)

/-- C1: the target of `delete_file` is resolved by scanning the arena in
index order; an element is accepted exactly when its 11-byte name equals
the file name and walking its parent chain matches every enclosing
directory name and ends at root exactly when the list is exhausted
(`SpecResolves`; with zero enclosing directories this forces a root
parent).  The first fully-verified match is used, and when no slot
verifies, `delete_file` returns `false` without touching the device. -/
theorem claim_C1_delete_path_resolution
    (s : FileSystemState) (d : Device) (file_name : Nat → Nat)
    (num_enclosing_directories : Nat)
    (enclosing_directory_names : Nat → Nat → Nat) (fat_fuel dir_fuel : Nat) :
    (∀ i, delete_file_resolve s.file_system_entrys file_name
        num_enclosing_directories enclosing_directory_names = some i →
      i < total_directory_entries ∧
        SpecResolves s.file_system_entrys file_name num_enclosing_directories
          enclosing_directory_names i ∧
        ∀ j < i, ¬ SpecResolves s.file_system_entrys file_name
          num_enclosing_directories enclosing_directory_names j) ∧
      (delete_file_resolve s.file_system_entrys file_name
          num_enclosing_directories enclosing_directory_names = none →
        (∀ i < total_directory_entries,
          ¬ SpecResolves s.file_system_entrys file_name
            num_enclosing_directories enclosing_directory_names i) ∧
        delete_file s d file_name num_enclosing_directories
            enclosing_directory_names fat_fuel dir_fuel
          = ⟨some false, s, d, [], []⟩) := by
  constructor
  · intro i h
    obtain ⟨h1, h2, h3, h4⟩ :=
      delete_file_resolve_scan_some s.file_system_entrys file_name
        num_enclosing_directories enclosing_directory_names
        total_directory_entries 0 i h
    refine ⟨by omega, (delete_target_matches_iff _ _ _ _ _).mp h3, ?_⟩
    intro j hj hspec
    have hfalse := h4 j (Nat.zero_le _) hj
    rw [(delete_target_matches_iff _ _ _ _ _).symm] at hspec
    simp [hfalse] at hspec
  · intro h
    constructor
    · intro i hi hspec
      have hfalse := delete_file_resolve_scan_none s.file_system_entrys file_name
        num_enclosing_directories enclosing_directory_names
        total_directory_entries 0 h i (Nat.zero_le _) (by omega)
      rw [(delete_target_matches_iff _ _ _ _ _).symm] at hspec
      simp [hfalse] at hspec
    · unfold delete_file
      rw [h]

/-- Witness for `claim_C1_delete_path_resolution`: a resolving scan on the
C10 scenario (zero enclosing directories, root parent) and a failing scan
on a blank arena that returns `false` with no device traffic. -/
theorem claim_C1_delete_path_resolution_witness :
    SpecResolves c10_state.file_system_entrys c10_name 0 (fun _ _ => 0) 0 ∧
      delete_file c1_state c1_dev c1_name 0 (fun _ _ => 0) 5 5
        = ⟨some false, c1_state, c1_dev, [], []⟩ :=
  ⟨((claim_C1_delete_path_resolution c10_state c10_dev c10_name 0
      (fun _ _ => 0) 10 10).1 0 (by decide)).2.1,
    ((claim_C1_delete_path_resolution c1_state c1_dev c1_name 0
      (fun _ _ => 0) 5 5).2 (by decide)).2⟩

/-- One iteration of the FAT-chain freeing loop, evaluated: when the
current cluster number is `c0` (byte-valid, no address wrap-around) and the
device read at its FAT sector succeeds, the iteration reads that sector,
extracts the 4-byte entry, zeroes it, writes the sector back, and either
stops (end-of-chain) or continues at the extracted value. -/
theorem fat_chain_free_loop_unfold (fb : B4) (hfb : fb.IsByte) (f : Nat)
    (d : Device) (sc : B4) (c0 : Nat) (hscB : sc.IsByte) (hsc : sc.toNat = c0)
    (hbound : fb.toNat + c0 / 128 < 4294967296)
    (hok : d.ok (fat_slot_lba fb c0) = true) :
    fat_chain_free_loop fb (f + 1) d sc =
      (let L := fat_slot_lba fb c0
       let idx := fat_slot_index c0
       let data : B4 :=
         ⟨d.mem L (idx + 3), d.mem L (idx + 2), d.mem L (idx + 1), d.mem L idx⟩
       let d' : Device := fat_zero_slot_dev d L idx
       if 0xF ≤ data.b0 ∧ data.b1 = 0xFF ∧ data.b2 = 0xFF ∧ 0xF8 ≤ data.b3 then
         some (d', [DevOp.read L, DevOp.write L])
       else
         match fat_chain_free_loop fb f d' data with
         | none => none
         | some (d'', ops') => some (d'', [DevOp.read L, DevOp.write L] ++ ops')) := by
  have hcalc := fat_offset_div_loop_toNat sc B4.zero hscB (by decide)
    (by rw [show B4.zero.toNat = 0 from rfl, hsc]; omega)
  have hidx : (fat_offset_div_loop sc B4.zero).2 = fat_slot_index c0 := by
    rw [hcalc.2.1, hsc]
    rfl
  have habs : (add_4_byte_numbers fb (fat_offset_div_loop sc B4.zero).1).toNat
      = fat_slot_lba fb c0 := by
    rw [add_4_byte_numbers_toNat fb _ hfb hcalc.2.2, hcalc.1,
      show B4.zero.toNat = 0 from rfl, hsc]
    unfold fat_slot_lba
    omega
  conv_lhs => unfold fat_chain_free_loop
  dsimp only [calculate_fat_sector_offset_from_cluster_number,
    Device.send_cmd17, Device.send_cmd24]
  rw [hidx, habs, hok]
  simp [fat_zero_slot_dev]

/-- Distinct clusters occupy disjoint 4-byte FAT slots: same sector forces
distinct, non-overlapping byte ranges. -/
theorem fat_slot_byte_disjoint (fb : B4) {c c' lba i : Nat} (hne : c ≠ c')
    (h1 : lba = fat_slot_lba fb c) (h2 : ∃ k < 4, i = fat_slot_index c + k)
    (h3 : lba = fat_slot_lba fb c') (h4 : ∃ k < 4, i = fat_slot_index c' + k) :
    False := by
  obtain ⟨k, hk, hik⟩ := h2
  obtain ⟨k', hk', hik'⟩ := h4
  unfold fat_slot_lba at h1 h3
  unfold fat_slot_index at hik hik'
  omega

/-- FAT links are stable between two devices that agree on the FAT entries
of the listed clusters. -/
theorem chain_fat_value_congr (fb : B4) (dA dB : Device) :
    ∀ l : List Nat,
      (∀ c ∈ l, fat_value dA fb c = fat_value dB fb c) →
      List.Chain' (fun a b => fat_value dB fb a = b) l →
      List.Chain' (fun a b => fat_value dA fb a = b) l := by
  intro l
  induction l with
  | nil =>
    intro _ _
    exact List.chain'_nil
  | cons a l ihl =>
    intro hp hc
    cases l with
    | nil => simp
    | cons b l =>
      rw [List.chain'_cons] at hc ⊢
      refine ⟨?_, ihl (fun c hcm => hp c (List.mem_cons_of_mem _ hcm)) hc.2⟩
      rw [hp a (by simp)]
      exact hc.1

/-- The FAT-chain freeing loop of `delete_file`, run on a well-formed chain
`c0 :: rest` (each link stored at its cluster's FAT slot, ending in an
end-of-chain marker, no duplicate clusters, no sector-address wrap-around,
cluster numbers below `0x0F000000` so that a link value is never mistaken
for an end-of-chain marker, successful reads, byte-valued slot contents,
enough fuel): it terminates, zeroes exactly the chain's slot bytes, leaves
every other device byte untouched, and issues one read and one write per
chain cluster, in order. -/
theorem fat_zero_slot_dev_mem_slot (d : Device) (L idx j : Nat)
    (h : j = idx ∨ j = idx + 1 ∨ j = idx + 2 ∨ j = idx + 3) :
    (fat_zero_slot_dev d L idx).mem L j = 0 := by
  unfold fat_zero_slot_dev
  dsimp only
  rw [if_pos rfl]
  exact if_pos h

theorem fat_zero_slot_dev_mem_other (d : Device) (L idx lba j : Nat)
    (h : lba = L → ¬(j = idx ∨ j = idx + 1 ∨ j = idx + 2 ∨ j = idx + 3)) :
    (fat_zero_slot_dev d L idx).mem lba j = d.mem lba j := by
  unfold fat_zero_slot_dev
  dsimp only
  by_cases hl : lba = L
  · rw [if_pos hl, if_neg (h hl), hl]
  · rw [if_neg hl]

/-- The FAT-chain freeing loop of `delete_file`, run on a well-formed chain
`c0 :: rest` (consecutive links stored at each cluster's FAT slot, ending
in an end-of-chain marker, no duplicate clusters, no sector-address
wrap-around, cluster numbers below `0x0F000000` so a link value can never
pass the end-of-chain test, successful reads, byte-valued slot contents,
enough fuel): it terminates, zeroes exactly the chain's slot bytes, leaves
every other device byte untouched, and issues one FAT-sector read and one
write per chain cluster, in chain order. -/
theorem fat_chain_free_loop_frees (fb : B4) (hfb : fb.IsByte) :
    ∀ (rest : List Nat) (c0 : Nat) (d : Device) (sc : B4) (fuel : Nat),
      sc.IsByte → sc.toNat = c0 → rest.length < fuel →
      (c0 :: rest).Nodup →
      (∀ c ∈ c0 :: rest, c < 251658240) →
      (∀ c ∈ c0 :: rest, fb.toNat + c / 128 < 4294967296) →
      (∀ c ∈ c0 :: rest, d.ok (fat_slot_lba fb c) = true) →
      (∀ c ∈ c0 :: rest, ∀ k < 4,
        d.mem (fat_slot_lba fb c) (fat_slot_index c + k) < 256) →
      List.Chain' (fun a b => fat_value d fb a = b) (c0 :: rest) →
      IsEocValue (fat_value d fb ((c0 :: rest).getLast (by simp))) →
      ∃ d' ops,
        fat_chain_free_loop fb fuel d sc = some (d', ops) ∧
          (∀ lba i, FatSlotByte fb (c0 :: rest) lba i → d'.mem lba i = 0) ∧
          (∀ lba i, ¬ FatSlotByte fb (c0 :: rest) lba i →
            d'.mem lba i = d.mem lba i) ∧
          d'.ok = d.ok ∧
          ops = (c0 :: rest).flatMap fun c =>
            [DevOp.read (fat_slot_lba fb c), DevOp.write (fat_slot_lba fb c)] := by
  intro rest
  induction rest with
  | nil =>
    intro c0 d sc fuel hscB hsc hfuel hnd hsmall hbound hok hbytes hchain hlast
    obtain ⟨f, rfl⟩ : ∃ f, fuel = f + 1 := ⟨fuel - 1, by omega⟩
    rw [fat_chain_free_loop_unfold fb hfb f d sc c0 hscB hsc
      (hbound c0 (by simp)) (hok c0 (by simp))]
    dsimp only
    have hlast' : IsEocValue (fat_value d fb c0) := by
      simpa using hlast
    have hcond : 0xF ≤ d.mem (fat_slot_lba fb c0) (fat_slot_index c0 + 3) ∧
        d.mem (fat_slot_lba fb c0) (fat_slot_index c0 + 2) = 0xFF ∧
        d.mem (fat_slot_lba fb c0) (fat_slot_index c0 + 1) = 0xFF ∧
        0xF8 ≤ d.mem (fat_slot_lba fb c0) (fat_slot_index c0) := by
      have hb0 := hbytes c0 (by simp) 0 (by omega)
      have hb1 := hbytes c0 (by simp) 1 (by omega)
      have hb2 := hbytes c0 (by simp) 2 (by omega)
      have hb3 := hbytes c0 (by simp) 3 (by omega)
      rw [Nat.add_zero] at hb0
      unfold IsEocValue fat_value at hlast'
      omega
    rw [if_pos hcond]
    refine ⟨_, _, rfl, ?_, ?_, rfl, by simp⟩
    · rintro lba i ⟨c, hc, hlba, k, hk, hi⟩
      rw [List.mem_singleton] at hc
      subst hc
      subst hlba
      exact fat_zero_slot_dev_mem_slot d _ _ i (by omega)
    · intro lba i hn
      refine fat_zero_slot_dev_mem_other d _ _ lba i ?_
      intro hl hin
      exact hn ⟨c0, by simp, hl, i - fat_slot_index c0, by omega, by omega⟩
  | cons c1 rest ihl =>
    intro c0 d sc fuel hscB hsc hfuel hnd hsmall hbound hok hbytes hchain hlast
    obtain ⟨f, rfl⟩ : ∃ f, fuel = f + 1 := ⟨fuel - 1, by omega⟩
    rw [fat_chain_free_loop_unfold fb hfb f d sc c0 hscB hsc
      (hbound c0 (by simp)) (hok c0 (by simp))]
    dsimp only
    have hb0 := hbytes c0 (by simp) 0 (by omega)
    have hb1 := hbytes c0 (by simp) 1 (by omega)
    have hb2 := hbytes c0 (by simp) 2 (by omega)
    have hb3 := hbytes c0 (by simp) 3 (by omega)
    rw [Nat.add_zero] at hb0
    have h01 : fat_value d fb c0 = c1 := (List.chain'_cons.mp hchain).1
    have hsm1 : c1 < 251658240 := hsmall c1 (by simp)
    have hcondf : ¬(0xF ≤ d.mem (fat_slot_lba fb c0) (fat_slot_index c0 + 3) ∧
        d.mem (fat_slot_lba fb c0) (fat_slot_index c0 + 2) = 0xFF ∧
        d.mem (fat_slot_lba fb c0) (fat_slot_index c0 + 1) = 0xFF ∧
        0xF8 ≤ d.mem (fat_slot_lba fb c0) (fat_slot_index c0)) := by
      unfold fat_value at h01
      omega
    rw [if_neg hcondf]
    have hne0 : c0 ∉ c1 :: rest := (List.nodup_cons.mp hnd).1
    -- the FAT entries of the remaining chain clusters survive the write
    have hslot : ∀ c ∈ c1 :: rest, ∀ j, (∃ k, k < 4 ∧ j = fat_slot_index c + k) →
        (fat_zero_slot_dev d (fat_slot_lba fb c0) (fat_slot_index c0)).mem
          (fat_slot_lba fb c) j = d.mem (fat_slot_lba fb c) j := by
      rintro c hc j ⟨k, hk, hj⟩
      have hne : c ≠ c0 := fun h => hne0 (h ▸ hc)
      refine fat_zero_slot_dev_mem_other d _ _ _ j ?_
      intro hL hin
      exact fat_slot_byte_disjoint fb hne rfl ⟨k, hk, hj⟩ hL
        ⟨j - fat_slot_index c0, by omega, by omega⟩
    have hpres : ∀ c ∈ c1 :: rest,
        fat_value (fat_zero_slot_dev d (fat_slot_lba fb c0) (fat_slot_index c0)) fb c
          = fat_value d fb c := by
      intro c hc
      unfold fat_value
      rw [hslot c hc (fat_slot_index c) ⟨0, by omega, by omega⟩,
        hslot c hc (fat_slot_index c + 1) ⟨1, by omega, by omega⟩,
        hslot c hc (fat_slot_index c + 2) ⟨2, by omega, by omega⟩,
        hslot c hc (fat_slot_index c + 3) ⟨3, by omega, by omega⟩]
    have hdataB : (⟨d.mem (fat_slot_lba fb c0) (fat_slot_index c0 + 3),
        d.mem (fat_slot_lba fb c0) (fat_slot_index c0 + 2),
        d.mem (fat_slot_lba fb c0) (fat_slot_index c0 + 1),
        d.mem (fat_slot_lba fb c0) (fat_slot_index c0)⟩ : B4).IsByte :=
      ⟨hb3, hb2, hb1, hb0⟩
    have hdataN : (⟨d.mem (fat_slot_lba fb c0) (fat_slot_index c0 + 3),
        d.mem (fat_slot_lba fb c0) (fat_slot_index c0 + 2),
        d.mem (fat_slot_lba fb c0) (fat_slot_index c0 + 1),
        d.mem (fat_slot_lba fb c0) (fat_slot_index c0)⟩ : B4).toNat = c1 := by
      rw [B4.mk_toNat]
      unfold fat_value at h01
      omega
    obtain ⟨d2, ops2, heq2, hzero2, hframe2, hok2, hops2⟩ :=
      ihl c1 (fat_zero_slot_dev d (fat_slot_lba fb c0) (fat_slot_index c0)) _ f
        hdataB hdataN (by simpa using hfuel)
        (List.nodup_cons.mp hnd).2
        (fun c hc => hsmall c (List.mem_cons_of_mem _ hc))
        (fun c hc => hbound c (List.mem_cons_of_mem _ hc))
        (fun c hc => hok c (List.mem_cons_of_mem _ hc))
        (fun c hc k hk => by
          rw [hslot c hc (fat_slot_index c + k) ⟨k, hk, rfl⟩]
          exact hbytes c (List.mem_cons_of_mem _ hc) k hk)
        (chain_fat_value_congr fb _ d (c1 :: rest) hpres
          (List.chain'_cons.mp hchain).2)
        (by
          rw [hpres _ (List.getLast_mem (by simp))]
          have hgl : (c0 :: c1 :: rest).getLast (by simp)
              = (c1 :: rest).getLast (by simp) := List.getLast_cons (by simp)
          rw [hgl] at hlast
          exact hlast)
    rw [heq2]
    refine ⟨d2, _, rfl, ?_, ?_, ?_, ?_⟩
    · rintro lba i ⟨c, hc, hlba, k, hk, hi⟩
      rcases List.mem_cons.mp hc with rfl | hc'
      · have hnrest : ¬ FatSlotByte fb (c1 :: rest) lba i := by
          rintro ⟨c', hc', hlba', k', hk', hi'⟩
          have hne : c' ≠ c := fun h => hne0 (h ▸ hc')
          exact fat_slot_byte_disjoint fb hne hlba' ⟨k', hk', hi'⟩ hlba ⟨k, hk, hi⟩
        rw [hframe2 lba i hnrest]
        subst hlba
        exact fat_zero_slot_dev_mem_slot d _ _ i (by omega)
      · exact hzero2 lba i ⟨c, hc', hlba, k, hk, hi⟩
    · intro lba i hn
      have hnrest : ¬ FatSlotByte fb (c1 :: rest) lba i := by
        rintro ⟨c', hc', hlba', hrest⟩
        exact hn ⟨c', List.mem_cons_of_mem _ hc', hlba', hrest⟩
      rw [hframe2 lba i hnrest]
      refine fat_zero_slot_dev_mem_other d _ _ lba i ?_
      intro hl hin
      exact hn ⟨c0, by simp, hl, i - fat_slot_index c0, by omega, by omega⟩
    · exact hok2
    · rw [hops2]
      simp [List.flatMap_cons]

/-- C2: for a `delete_file` call that resolves a target, (1) when the
target's 4-byte starting cluster is 0 or 1 the FAT is neither read nor
written; (2) otherwise the FAT phase is exactly the chain-freeing loop
started at that cluster; and (3) that loop, on a stored chain ending in an
end-of-chain marker, reads each chain cluster's FAT sector, zeroes the
4-byte slot (having first extracted the stored next-cluster value), writes
the sector back, stops exactly at the end-of-chain marker, and afterwards
every chain cluster's FAT slot reads back as `0x00000000` (all other
device bytes untouched). -/
theorem claim_C2_fat_chain_freeing :
    (∀ (s : FileSystemState) (d : Device) (file_name : Nat → Nat) (num : Nat)
        (dirs : Nat → Nat → Nat) (ff df : Nat) (i : Nat),
      delete_file_resolve s.file_system_entrys file_name num dirs = some i →
      (((s.file_system_entrys i).starting_cluster_address.b3 = 0 ∨
          (s.file_system_entrys i).starting_cluster_address.b3 = 1) ∧
        (s.file_system_entrys i).starting_cluster_address.b2 = 0 ∧
        (s.file_system_entrys i).starting_cluster_address.b1 = 0 ∧
        (s.file_system_entrys i).starting_cluster_address.b0 = 0) →
      (delete_file s d file_name num dirs ff df).fat_ops = []) ∧
    (∀ (s : FileSystemState) (d : Device) (file_name : Nat → Nat) (num : Nat)
        (dirs : Nat → Nat → Nat) (ff df : Nat) (i : Nat) (d1 : Device)
        (ops1 : List DevOp),
      delete_file_resolve s.file_system_entrys file_name num dirs = some i →
      ¬(((s.file_system_entrys i).starting_cluster_address.b3 = 0 ∨
          (s.file_system_entrys i).starting_cluster_address.b3 = 1) ∧
        (s.file_system_entrys i).starting_cluster_address.b2 = 0 ∧
        (s.file_system_entrys i).starting_cluster_address.b1 = 0 ∧
        (s.file_system_entrys i).starting_cluster_address.b0 = 0) →
      fat_chain_free_loop s.fat_begin_lba ff d
          (s.file_system_entrys i).starting_cluster_address = some (d1, ops1) →
      (delete_file s d file_name num dirs ff df).fat_ops = ops1) ∧
    (∀ (fb : B4) (rest : List Nat) (c0 : Nat) (d : Device) (sc : B4) (fuel : Nat),
      fb.IsByte → sc.IsByte → sc.toNat = c0 → rest.length < fuel →
      (c0 :: rest).Nodup →
      (∀ c ∈ c0 :: rest, c < 251658240) →
      (∀ c ∈ c0 :: rest, fb.toNat + c / 128 < 4294967296) →
      (∀ c ∈ c0 :: rest, d.ok (fat_slot_lba fb c) = true) →
      (∀ c ∈ c0 :: rest, ∀ k < 4,
        d.mem (fat_slot_lba fb c) (fat_slot_index c + k) < 256) →
      List.Chain' (fun a b => fat_value d fb a = b) (c0 :: rest) →
      IsEocValue (fat_value d fb ((c0 :: rest).getLast (by simp))) →
      ∃ d' ops,
        fat_chain_free_loop fb fuel d sc = some (d', ops) ∧
          (∀ c ∈ c0 :: rest, fat_value d' fb c = 0) ∧
          (∀ lba i, ¬ FatSlotByte fb (c0 :: rest) lba i →
            d'.mem lba i = d.mem lba i) ∧
          d'.ok = d.ok ∧
          ops = (c0 :: rest).flatMap fun c =>
            [DevOp.read (fat_slot_lba fb c), DevOp.write (fat_slot_lba fb c)]) := by
  refine ⟨?_, ?_, ?_⟩
  · intro s d file_name num dirs ff df i hres hcl
    unfold delete_file
    rw [hres]
    dsimp only
    rw [if_pos hcl]
    dsimp only
    split
    · rfl
    · rfl
  · intro s d file_name num dirs ff df i d1 ops1 hres hcl hloop
    unfold delete_file
    rw [hres]
    dsimp only
    rw [if_neg hcl, hloop]
    dsimp only
    split
    · rfl
    · rfl
  · intro fb rest c0 d sc fuel hfb hscB hsc hfuel hnd hsmall hbound hok hbytes
      hchain hlast
    obtain ⟨d', ops, heq, hzero, hframe, hok', hops⟩ :=
      fat_chain_free_loop_frees fb hfb rest c0 d sc fuel hscB hsc hfuel hnd
        hsmall hbound hok hbytes hchain hlast
    refine ⟨d', ops, heq, ?_, hframe, hok', hops⟩
    intro c hc
    unfold fat_value
    rw [hzero _ _ ⟨c, hc, rfl, 0, by omega, by omega⟩,
      hzero _ _ ⟨c, hc, rfl, 1, by omega, by omega⟩,
      hzero _ _ ⟨c, hc, rfl, 2, by omega, by omega⟩,
      hzero _ _ ⟨c, hc, rfl, 3, by omega, by omega⟩]

/-- Witness for `claim_C2_fat_chain_freeing`: the empty-file skip on the C3
scenario (starting cluster 0, no FAT traffic), the FAT phase of the C10
deletion (cluster 5), and the spec's worked chain `5 → 9 → 14 → EOC` on the
C2 device, all three obtained by applying the claim's theorem. -/
theorem claim_C2_fat_chain_freeing_witness :
    (delete_file c3_state c3_dev c3_target_name 0 (fun _ _ => 0) 10 10).fat_ops
        = [] ∧
      (delete_file c10_state c10_dev c10_name 0 (fun _ _ => 0) 10 10).fat_ops
        = (c10_fat_run.getD (c10_dev, [])).2 ∧
      ∃ d' ops,
        fat_chain_free_loop ⟨0, 0, 0, 10⟩ 5 c2_dev ⟨0, 0, 0, 5⟩ = some (d', ops) ∧
          (∀ c ∈ [5, 9, 14], fat_value d' ⟨0, 0, 0, 10⟩ c = 0) ∧
          (∀ lba i, ¬ FatSlotByte ⟨0, 0, 0, 10⟩ [5, 9, 14] lba i →
            d'.mem lba i = c2_dev.mem lba i) ∧
          d'.ok = c2_dev.ok ∧
          ops = ([5, 9, 14].flatMap fun c =>
            [DevOp.read (fat_slot_lba ⟨0, 0, 0, 10⟩ c),
             DevOp.write (fat_slot_lba ⟨0, 0, 0, 10⟩ c)]) :=
  ⟨claim_C2_fat_chain_freeing.1 c3_state c3_dev c3_target_name 0 (fun _ _ => 0)
      10 10 0 (by decide) (by decide),
    claim_C2_fat_chain_freeing.2.1 c10_state c10_dev c10_name 0 (fun _ _ => 0)
      10 10 0 (c10_fat_run.getD (c10_dev, [])).1 (c10_fat_run.getD (c10_dev, [])).2
      (by decide) (by decide) rfl,
    claim_C2_fat_chain_freeing.2.2 ⟨0, 0, 0, 10⟩ [9, 14] 5 c2_dev ⟨0, 0, 0, 5⟩ 5
      (by decide) (by decide) (by decide) (by decide) (by decide) (by decide)
      (by decide) (by decide) (by decide)
      (List.chain'_cons.mpr ⟨by decide,
        List.chain'_cons.mpr ⟨by decide, List.chain'_singleton _⟩⟩)
      (by decide)⟩

/-- Composing two arena-growing steps preserves the "parent precedes child"
bookkeeping: indices grow, old entries survive, new entries point
backwards. -/
theorem arena_step_compose (arA arB arC : Arena)
    (h1 : arA.idx ≤ arB.idx)
    (h2 : ∀ k, k < arA.idx → arB.entrys k = arA.entrys k)
    (h3 : ∀ k, arA.idx ≤ k → k < arB.idx →
      ∀ p, (arB.entrys k).parent_directory = some p → p < k)
    (g1 : arB.idx ≤ arC.idx)
    (g2 : ∀ k, k < arB.idx → arC.entrys k = arB.entrys k)
    (g3 : ∀ k, arB.idx ≤ k → k < arC.idx →
      ∀ p, (arC.entrys k).parent_directory = some p → p < k) :
    arA.idx ≤ arC.idx ∧
      (∀ k, k < arA.idx → arC.entrys k = arA.entrys k) ∧
      (∀ k, arA.idx ≤ k → k < arC.idx →
        ∀ p, (arC.entrys k).parent_directory = some p → p < k) := by
  refine ⟨le_trans h1 g1, ?_, ?_⟩
  · intro k hk
    rw [g2 k (lt_of_lt_of_le hk h1), h2 k hk]
  · intro k hk1 hk2 p hp
    by_cases hB : k < arB.idx
    · refine h3 k hk1 hB p ?_
      rw [← g2 k hB]
      exact hp
    · exact g3 k (by omega) hk2 p hp

/-- The pre-order invariant of the directory-tree builder: whenever a
builder call completes, the arena has only grown, entries below the
starting index are untouched, and every appended entry's parent
back-reference points to a strictly smaller arena index (its parent was
appended before it). -/
theorem read_directory_parent_lt (d : Device) (cb : B4) (spc : Nat) :
    ∀ f : Nat,
      (∀ (i : Nat) (sec : Sector) (parent : Option Nat) (ar : Arena)
          (endf : Bool) (ar' : Arena) (ops : List DevOp),
        read_directory_scan_slots d cb spc f i sec parent ar
            = some (endf, ar', ops) →
        (∀ p, parent = some p → p < ar.idx) →
        ar.idx ≤ ar'.idx ∧
          (∀ k, k < ar.idx → ar'.entrys k = ar.entrys k) ∧
          (∀ k, ar.idx ≤ k → k < ar'.idx →
            ∀ p, (ar'.entrys k).parent_directory = some p → p < k)) ∧
      (∀ (addr : B4) (buf : Sector) (parent : Option Nat) (ar : Arena)
          (ar' : Arena) (ops : List DevOp),
        read_directory_recursive d cb spc f addr buf parent ar
            = some (ar', ops) →
        (∀ p, parent = some p → p < ar.idx) →
        ar.idx ≤ ar'.idx ∧
          (∀ k, k < ar.idx → ar'.entrys k = ar.entrys k) ∧
          (∀ k, ar.idx ≤ k → k < ar'.idx →
            ∀ p, (ar'.entrys k).parent_directory = some p → p < k)) := by
  intro f
  induction f with
  | zero =>
    constructor
    · intro i sec parent ar endf ar' ops h
      exact absurd h (by simp [read_directory_scan_slots])
    · intro addr buf parent ar ar' ops h
      exact absurd h (by simp [read_directory_recursive])
  | succ f ihf =>
    obtain ⟨ihscan, ihrec⟩ := ihf
    have htriv : ∀ ar : Arena, ar.idx ≤ ar.idx ∧
        (∀ k, k < ar.idx → ar.entrys k = ar.entrys k) ∧
        (∀ k, ar.idx ≤ k → k < ar.idx →
          ∀ p, (ar.entrys k).parent_directory = some p → p < k) :=
      fun ar => ⟨Nat.le_refl _, fun _ _ => rfl, fun k hk1 hk2 => by omega⟩
    constructor
    · intro i sec parent ar endf ar' ops h hpar
      rw [read_directory_scan_slots] at h
      by_cases h16 : 16 ≤ i
      · rw [if_pos h16] at h
        simp only [Option.some.injEq, Prod.mk.injEq] at h
        obtain ⟨-, h2, -⟩ := h
        subst h2
        exact htriv ar
      rw [if_neg h16] at h
      by_cases hterm : sec (i * 32) = 0
      · rw [if_pos hterm] at h
        simp only [Option.some.injEq, Prod.mk.injEq] at h
        obtain ⟨-, h2, -⟩ := h
        subst h2
        exact htriv ar
      rw [if_neg hterm] at h
      by_cases hdel : sec (i * 32) = 0xE5
      · rw [if_pos hdel] at h
        exact ihscan (i + 1) sec parent ar endf ar' ops h hpar
      rw [if_neg hdel] at h
      by_cases hlfn : sec (i * 32 + 11) = 0xF
      · rw [if_pos hlfn] at h
        exact ihscan (i + 1) sec parent ar endf ar' ops h hpar
      rw [if_neg hlfn] at h
      by_cases hhs : sec (i * 32 + 11) &&& 2 ≠ 0 ∨ sec (i * 32 + 11) &&& 4 ≠ 0
      · rw [if_pos hhs] at h
        exact ihscan (i + 1) sec parent ar endf ar' ops h hpar
      rw [if_neg hhs] at h
      by_cases hdot : dot_name_skip sec (i * 32) = true
      · rw [if_pos hdot] at h
        exact ihscan (i + 1) sec parent ar endf ar' ops h hpar
      rw [if_neg hdot] at h
      dsimp only at h
      generalize hsc4 : ({ b0 := sec (i * 32 + 21), b1 := sec (i * 32 + 20), b2 := sec (i * 32 + 27), b3 := sec (i * 32 + 26) } : B4) = sc4 at h
      generalize het : classify_entry_type (sec (i * 32 + 11))
        ((ar.entrys ar.idx).entry_type) = et at h
      generalize he : ({ entry_in_use := true, parent_directory := parent, deleted_directory_entry := (ar.entrys ar.idx).deleted_directory_entry, attribute_byte := sec (i * 32 + 11), entry_type := et, name_of_entry := fun j => if j < 11 then sec (i * 32 + j) else (ar.entrys ar.idx).name_of_entry j, starting_cluster_address := sc4, size_of_entry_in_bytes := { b0 := sec (i * 32 + 31), b1 := sec (i * 32 + 30), b2 := sec (i * 32 + 29), b3 := sec (i * 32 + 28) } } : FAT32FileSystemEntry) = e at h
      have hpe : e.parent_directory = parent := by rw [← he]
      have happ : ∀ ar2 : Arena,
          ar.idx + 1 ≤ ar2.idx →
          (∀ k, k < ar.idx + 1 →
            ar2.entrys k = (if k = ar.idx then e else ar.entrys k)) →
          (∀ k, ar.idx + 1 ≤ k → k < ar2.idx →
            ∀ p, (ar2.entrys k).parent_directory = some p → p < k) →
          ar.idx ≤ ar2.idx ∧
            (∀ k, k < ar.idx → ar2.entrys k = ar.entrys k) ∧
            (∀ k, ar.idx ≤ k → k < ar2.idx →
              ∀ p, (ar2.entrys k).parent_directory = some p → p < k) := by
        intro ar2 hle hlow hnew
        refine ⟨by omega, ?_, ?_⟩
        · intro k hk
          rw [hlow k (by omega), if_neg (by omega)]
        · intro k hk1 hk2 p hp
          rcases Nat.eq_or_lt_of_le hk1 with rfl | hgt
          · rw [hlow _ (by omega), if_pos rfl, hpe] at hp
            exact hpar p hp
          · exact hnew k (by omega) hk2 p hp
      by_cases hdir : et = directory_entry_t.DIRECTORY_ENTRY
      · rw [if_pos hdir] at h
        rcases hrec2 : read_directory_recursive d cb spc f
            (calculate_sector_address_from_cluster_number cb spc sc4)
            zeroSector (some (ar.idx + 1 - 1))
            (⟨fun k => if k = ar.idx then e else ar.entrys k, ar.idx + 1⟩ :
              Arena) with _ | pr
        · rw [hrec2] at h
          exact absurd h (by simp)
        · rw [hrec2] at h
          obtain ⟨ar2, ops1⟩ := pr
          dsimp only at h
          rcases hs2 : read_directory_scan_slots d cb spc f (i + 1) sec parent
              ar2 with _ | tr
          · rw [hs2] at h
            exact absurd h (by simp)
          · rw [hs2] at h
            obtain ⟨endf2, ar3, ops2⟩ := tr
            dsimp only at h
            simp only [Option.some.injEq, Prod.mk.injEq] at h
            obtain ⟨-, h2, -⟩ := h
            subst h2
            have hstep1 := ihrec _ _ _ _ _ _ hrec2
              (by
                intro p hp
                simp only [Option.some.injEq] at hp
                show p < ar.idx + 1
                omega)
            have hstep2 := ihscan _ _ _ _ _ _ _ hs2
              (fun p hp => lt_of_lt_of_le (hpar p hp)
                (le_trans (Nat.le_succ ar.idx) hstep1.1))
            have hcomp := arena_step_compose _ _ _ hstep1.1 hstep1.2.1
              hstep1.2.2 hstep2.1 hstep2.2.1 hstep2.2.2
            exact happ ar3 hcomp.1 hcomp.2.1 hcomp.2.2
      · rw [if_neg hdir] at h
        have hstep := ihscan _ _ _ _ _ _ _ h
          (fun p hp => lt_of_lt_of_le (hpar p hp) (Nat.le_succ ar.idx))
        exact happ ar' hstep.1 hstep.2.1 hstep.2.2
    · intro addr buf parent ar ar' ops h hpar
      rw [read_directory_recursive] at h
      rcases hs : read_directory_scan_slots d cb spc f 0
          ((d.send_cmd17 buf addr).2) parent ar with _ | tr
      · rw [hs] at h
        exact absurd h (by simp)
      · rw [hs] at h
        obtain ⟨endf, ar1, ops1⟩ := tr
        dsimp only at h
        have hstep1 := ihscan _ _ _ _ _ _ _ hs hpar
        by_cases hend : endf = true
        · rw [if_pos hend] at h
          simp only [Option.some.injEq, Prod.mk.injEq] at h
          obtain ⟨h2, -⟩ := h
          subst h2
          exact hstep1
        · rw [if_neg hend] at h
          rcases hr2 : read_directory_recursive d cb spc f
              (add_4_byte_numbers ⟨0, 0, 0, 1⟩ addr)
              ((d.send_cmd17 buf addr).2) parent ar1 with _ | pr
          · rw [hr2] at h
            exact absurd h (by simp)
          · rw [hr2] at h
            obtain ⟨ar2, ops2⟩ := pr
            dsimp only at h
            simp only [Option.some.injEq, Prod.mk.injEq] at h
            obtain ⟨h2, -⟩ := h
            subst h2
            have hstep2 := ihrec _ _ _ _ _ _ hr2
              (fun p hp => lt_of_lt_of_le (hpar p hp) hstep1.1)
            exact arena_step_compose _ _ _ hstep1.1 hstep1.2.1 hstep1.2.2
              hstep2.1 hstep2.2.1 hstep2.2.2

/-- The successful construction run exposes the arena produced by the
root-directory ingestion: the engine state's entries and index are those
of the final arena of `read_directory_recursive` started at index 0 with
no parent. -/
theorem FileSystem_construct_arena (d : Device) (init : FileSystemState)
    (jm jv : Sector) (fuel : Nat) (st : FileSystemState) (ops : List DevOp)
    (h : FileSystem_construct d init jm jv fuel = some (st, ops)) :
    ∃ (cb : B4) (spc : Nat) (ra : B4) (ar : Arena) (ops1 : List DevOp),
      read_directory_recursive d cb spc fuel ra zeroSector none
          ⟨init.file_system_entrys, 0⟩ = some (ar, ops1) ∧
      st.file_system_entrys = ar.entrys ∧
      st.file_systems_entry_index = ar.idx := by
  unfold FileSystem_construct at h
  dsimp only at h
  split at h
  · exact absurd h (by simp)
  · rename_i ar ops1 hr
    simp only [Option.some.injEq, Prod.mk.injEq] at h
    obtain ⟨h1, -⟩ := h
    subst h1
    exact ⟨_, _, _, ar, ops1, hr, rfl, rfl⟩

/-- C8 counterexample: on `c8_dev` the root directory holds the
subdirectory `A` (whose sector contains the file `C`) followed by the
file `B`.  Construction appends `A` at arena index 0, immediately
descends and appends `C` at index 1, and only then appends the root's
second immediate child `B` at index 2 — the root's children occupy
indices 0 and 2, with an element of a nested subdirectory between them,
so a directory's immediate children are not inserted before every
nested-subdirectory element. -/
theorem claim_C8_counterexample :
    c8_run_st.file_systems_entry_index = 3 ∧
    (c8_run_st.file_system_entrys 0).name_of_entry 0 = 0x41 ∧
    (c8_run_st.file_system_entrys 0).parent_directory = none ∧
    (c8_run_st.file_system_entrys 0).entry_type
        = directory_entry_t.DIRECTORY_ENTRY ∧
    (c8_run_st.file_system_entrys 1).name_of_entry 0 = 0x43 ∧
    (c8_run_st.file_system_entrys 1).parent_directory = some 0 ∧
    (c8_run_st.file_system_entrys 2).name_of_entry 0 = 0x42 ∧
    (c8_run_st.file_system_entrys 2).parent_directory = none := by
  decide

/-- C8 (amended): arena population is pre-order — the recursive descent
into a just-appended subdirectory happens immediately, so every element's
parent sits at a strictly smaller arena index; but a directory's children
are NOT contiguous: in the `c8_dev` construction a nested subdirectory's
element (index 1) is appended between the root's immediate children
(indices 0 and 2). -/
theorem claim_C8_dfs_order :
    (∀ (d : Device) (init : FileSystemState) (jm jv : Sector) (fuel : Nat)
        (st : FileSystemState) (ops : List DevOp),
      FileSystem_construct d init jm jv fuel = some (st, ops) →
      ∀ k, k < st.file_systems_entry_index →
        ∀ p, (st.file_system_entrys k).parent_directory = some p → p < k) ∧
    ((c8_run_st.file_system_entrys 0).parent_directory = none ∧
      (c8_run_st.file_system_entrys 1).parent_directory = some 0 ∧
      (c8_run_st.file_system_entrys 2).parent_directory = none) := by
  constructor
  · intro d init jm jv fuel st ops h k hk p hp
    obtain ⟨cb, spc, ra, ar, ops1, hr, he, hi⟩ :=
      FileSystem_construct_arena d init jm jv fuel st ops h
    rw [hi] at hk
    rw [he] at hp
    have hinv := (read_directory_parent_lt d cb spc fuel).2 ra zeroSector none
      ⟨init.file_system_entrys, 0⟩ ar ops1 hr
      (fun q hq => Option.noConfusion hq)
    exact hinv.2.2 k (Nat.zero_le k) hk p hp
  · exact ⟨by decide, by decide, by decide⟩

/-- Witness for C8: the concrete construction on `c8_dev` succeeds, its
second arena element has parent index 0, and the general theorem yields
0 < 1 for it. -/
theorem claim_C8_dfs_order_witness :
    FileSystem_construct c8_dev c1_state zeroSector zeroSector 30
        = some (c8_run_st, c8_run_ops) ∧
    1 < c8_run_st.file_systems_entry_index ∧
    (c8_run_st.file_system_entrys 1).parent_directory = some 0 ∧
    0 < 1 := by
  refine ⟨rfl, by decide, by decide, ?_⟩
  exact claim_C8_dfs_order.1 c8_dev c1_state zeroSector zeroSector 30
    c8_run_st c8_run_ops rfl 1 (by decide) 0 (by decide)

end FS32
